import Mathlib

set_option maxHeartbeats 1000000

/-!
Verification of core MaxScale components against their sources: a shallow
embedding of the MariaDB backend protocol connection (mariadb_backend.cc),
the routing-worker persistent connection pool (routingworker.cc) and the
Clustrix monitor node (clustrixnode.hh), together with theorems about the
embedded definitions.

Machine integers are modelled as Nat (unsigned) or Int (signed) values;
byte buffers as lists of Nat whose elements are below 256 at every use.
-/

namespace MaxScaleSpec

/-! MySQL wire protocol constants, as used by mariadb_backend.cc.  Their
defining header (maxscale/protocol/mysql.hh) is not among the sources; the
values are the MySQL/MariaDB client-server protocol values that the spec's
wire-protocol section describes. -/

def MYSQL_HEADER_LEN : Nat := 4

/-- Maximum payload carried by one MySQL packet, 2^24 - 1. -/
def GW_MYSQL_MAX_PACKET_LEN : Nat := 0xffffff

/-- Total length (header plus payload) of an EOF packet. -/
def MYSQL_EOF_PACKET_LEN : Nat := 9

def MYSQL_REPLY_OK : Nat := 0x00
def MYSQL_REPLY_ERR : Nat := 0xff
def MYSQL_REPLY_EOF : Nat := 0xfe
def MYSQL_REPLY_LOCAL_INFILE : Nat := 0xfb

def MXS_COM_QUIT : Nat := 0x01
def MXS_COM_QUERY : Nat := 0x03
def MXS_COM_FIELD_LIST : Nat := 0x04
def MXS_COM_STATISTICS : Nat := 0x09
def MXS_COM_CHANGE_USER : Nat := 0x11
def MXS_COM_BINLOG_DUMP : Nat := 0x12
def MXS_COM_STMT_PREPARE : Nat := 0x16
def MXS_COM_STMT_EXECUTE : Nat := 0x17
def MXS_COM_STMT_FETCH : Nat := 0x1c

/-- Status-flag bit SERVER_MORE_RESULTS_EXIST of the MySQL protocol. -/
def SERVER_MORE_RESULTS_EXIST : Nat := 0x0008

/-! Server status bits.  Modelled from the spec: the status bitset carries
Running and Master bits; the defining header is not among the sources, so
two fixed distinct bits are used. -/

def SERVER_RUNNING : Nat := 1
def SERVER_MASTER : Nat := 4

/-! Bitwise helper lemmas used to reason about status masks. -/

lemma testBit_cond (b : Bool) (x y : Nat) (i : Nat) :
    (cond b x y).testBit i = cond b (x.testBit i) (y.testBit i) := by
  cases b <;> rfl

lemma lor_land_self (s m : Nat) : (s ||| m) &&& m = m := by
  apply Nat.eq_of_testBit_eq
  intro i
  simp only [Nat.testBit_land, Nat.testBit_lor]
  cases s.testBit i <;> cases m.testBit i <;> rfl

lemma land_land_of_disjoint (s c m : Nat) (h : c &&& m = 0) :
    (s &&& c) &&& m = 0 := by
  apply Nat.eq_of_testBit_eq
  intro i
  have hc : (c &&& m).testBit i = (0 : Nat).testBit i := by rw [h]
  simp only [Nat.testBit_land, Nat.zero_testBit] at hc ⊢
  cases hs : s.testBit i <;> cases hcc : c.testBit i <;>
    simp_all

/-- Status-flag bit SERVER_SESSION_STATE_CHANGED of the MySQL protocol. -/
def SERVER_SESSION_STATE_CHANGED : Nat := 0x4000

/-! Session-track block type tags of the MySQL protocol. -/

def SESSION_TRACK_SYSTEM_VARIABLES : Nat := 0
def SESSION_TRACK_SCHEMA : Nat := 1
def SESSION_TRACK_STATE_CHANGE : Nat := 2
def SESSION_TRACK_GTIDS : Nat := 3
def SESSION_TRACK_TRANSACTION_CHARACTERISTICS : Nat := 4
def SESSION_TRACK_TRANSACTION_TYPE : Nat := 5

/-!
Reply-state tracker of MariaDBBackendConnection (mariadb_backend.cc,
process_packets / process_one_packet and their helpers).

A packet payload is a list of byte values; an iterator into a payload is
the list of bytes not yet consumed.  The helpers below mirror the
anonymous-namespace iterator utilities of mariadb_backend.cc.  Multi-byte
values assembled by shift-or in the source are assembled here with + and *,
which coincide for byte values below 256.
-/

/-- Reading one byte and advancing, as *it++ does; reading past the end of
the buffer (undefined behaviour in the source) yields 0. -/
def next_byte : List Nat → Nat × List Nat
  | [] => (0, [])
  | b :: rest => (b, rest)

/-- Length-encoded integer reader get_encoded_int of mariadb_backend.cc:
a leading byte 0xfc, 0xfd or 0xfe selects a 2-, 3- or 8-byte little-endian
integer, any other leading byte is the value itself.  Reads past the end of
the buffer (undefined behaviour in the source) yield 0. -/
def get_encoded_int (it : List Nat) : Nat × List Nat :=
  match it with
  | [] => (0, [])
  | b :: rest =>
    if b = 0xfc then
      (rest.getD 0 0 + rest.getD 1 0 * 256, rest.drop 2)
    else if b = 0xfd then
      (rest.getD 0 0 + rest.getD 1 0 * 256 + rest.getD 2 0 * 65536, rest.drop 3)
    else if b = 0xfe then
      (rest.getD 0 0 + rest.getD 1 0 * 256 + rest.getD 2 0 * 65536
        + rest.getD 3 0 * 16777216 + rest.getD 4 0 * 2 ^ 32 + rest.getD 5 0 * 2 ^ 40
        + rest.getD 6 0 * 2 ^ 48 + rest.getD 7 0 * 2 ^ 56, rest.drop 8)
    else
      (b, rest)

/-- Iterator advance over encoded integers, skip_encoded_int of
mariadb_backend.cc. -/
def skip_encoded_int (it : List Nat) : List Nat :=
  match it with
  | [] => []
  | b :: rest =>
    if b = 0xfc then rest.drop 2
    else if b = 0xfd then rest.drop 3
    else if b = 0xfe then rest.drop 8
    else rest

/-- Length-encoded string reader get_encoded_str of mariadb_backend.cc. -/
def get_encoded_str (it : List Nat) : List Nat × List Nat :=
  let (len, it) := get_encoded_int it
  (it.take len, it.drop len)

/-- Length-encoded string skipper skip_encoded_str of mariadb_backend.cc. -/
def skip_encoded_str (it : List Nat) : List Nat :=
  let (len, it) := get_encoded_int it
  it.drop len

/-- Predicate is_last_eof of mariadb_backend.cc: the status flags of an EOF
payload (bytes 3 and 4) have SERVER_MORE_RESULTS_EXIST unset. -/
def is_last_eof (p : List Nat) : Bool :=
  (p.getD 3 0 + p.getD 4 0 * 256) &&& SERVER_MORE_RESULTS_EXIST = 0

/-- Reply states of mxs::ReplyState. -/
inductive ReplyState
  | START
  | DONE
  | RSET_COLDEF
  | RSET_COLDEF_EOF
  | RSET_ROWS
  | PREPARE
  deriving Repr, DecidableEq

/-- Session variables recorded by m_reply.set_variable, one constructor per
call site in process_ok_packet. -/
inductive TrackedVar
  | lastGtid (value : List Nat)
  | trxCharacteristics (value : List Nat)
  | sysVar (name value : List Nat)
  | trxState (value : List Nat)
  deriving Repr, DecidableEq

/-- Fields of mxs::Reply read and written by the tracker. -/
structure Reply where
  state : ReplyState
  command : Nat
  rows : Nat
  field_counts : Nat
  warnings : Nat
  generated_id : Nat
  param_count : Nat
  is_ok : Bool
  err_code : Option Nat
  sql_state : List Nat
  err_msg : List Nat
  vars : List TrackedVar
  deriving Repr, DecidableEq

/-- Tracking fields of MariaDBBackendConnection used by the reply-state
machine, plus the service capability flag RCAP_TYPE_SESSION_STATE_TRACKING
consulted by process_ok_packet. -/
structure TrackState where
  reply : Reply
  num_coldefs : Nat
  ps_packets : Nat
  opening_cursor : Bool
  changing_user : Bool
  skip_next : Bool
  load_active : Bool
  track_session_state : Bool
  deriving Repr, DecidableEq

def set_reply_state (st : TrackState) (s : ReplyState) : TrackState :=
  { st with reply := { st.reply with state := s } }

lemma length_next_byte_snd (it : List Nat) : (next_byte it).2.length ≤ it.length := by
  cases it <;> simp [next_byte]

lemma length_get_encoded_int_snd (it : List Nat) :
    (get_encoded_int it).2.length ≤ it.length := by
  cases it with
  | nil => simp [get_encoded_int]
  | cons b rest =>
    simp only [get_encoded_int]
    split_ifs <;> simp <;> omega

lemma length_skip_encoded_str (it : List Nat) :
    (skip_encoded_str it).length ≤ it.length := by
  simp only [skip_encoded_str]
  calc ((get_encoded_int it).2.drop (get_encoded_int it).1).length
      ≤ (get_encoded_int it).2.length := by simp
    _ ≤ it.length := length_get_encoded_int_snd it

lemma length_get_encoded_str_snd (it : List Nat) :
    (get_encoded_str it).2.length ≤ it.length := by
  simp only [get_encoded_str]
  calc ((get_encoded_int it).2.drop (get_encoded_int it).1).length
      ≤ (get_encoded_int it).2.length := by simp
    _ ≤ it.length := length_get_encoded_int_snd it

lemma length_skip_encoded_int (it : List Nat) :
    (skip_encoded_int it).length ≤ it.length := by
  cases it with
  | nil => simp [skip_encoded_int]
  | cons b rest =>
    simp only [skip_encoded_int]
    split_ifs <;> simp <;> omega

lemma track_bound_state (l : List Nat) :
    ((get_encoded_int l).2.drop (get_encoded_int l).1).length < l.length + 1 := by
  have h1 := length_get_encoded_int_snd l
  have h7 : ((get_encoded_int l).2.drop (get_encoded_int l).1).length
      ≤ (get_encoded_int l).2.length := by simp
  omega

lemma track_bound_schema (l : List Nat) :
    (skip_encoded_str (get_encoded_int l).2).length < l.length + 1 := by
  have h1 := length_get_encoded_int_snd l
  have h2 := length_skip_encoded_str (get_encoded_int l).2
  omega

lemma track_bound_gtids (l : List Nat) :
    (get_encoded_str (skip_encoded_int (get_encoded_int l).2)).2.length < l.length + 1 := by
  have h1 := length_get_encoded_int_snd l
  have h3 := length_skip_encoded_int (get_encoded_int l).2
  have h4 := length_get_encoded_str_snd (skip_encoded_int (get_encoded_int l).2)
  omega

lemma track_bound_one_str (l : List Nat) :
    (get_encoded_str (get_encoded_int l).2).2.length < l.length + 1 := by
  have h1 := length_get_encoded_int_snd l
  have h5 := length_get_encoded_str_snd (get_encoded_int l).2
  omega

lemma track_bound_two_str (l : List Nat) :
    (get_encoded_str (get_encoded_str (get_encoded_int l).2).2).2.length < l.length + 1 := by
  have h1 := length_get_encoded_int_snd l
  have h5 := length_get_encoded_str_snd (get_encoded_int l).2
  have h6 := length_get_encoded_str_snd (get_encoded_str (get_encoded_int l).2).2
  omega

/-- Session-track parsing loop at the end of process_ok_packet.  Each block
is a type byte, a length-encoded size, and type-specific content. -/
def track_session_vars (st : TrackState) (it : List Nat) : TrackState :=
  match it with
  | [] => st
  | t :: it' =>
    if t = SESSION_TRACK_STATE_CHANGE then
      track_session_vars st ((get_encoded_int it').2.drop (get_encoded_int it').1)
    else if t = SESSION_TRACK_SCHEMA then
      track_session_vars st (skip_encoded_str (get_encoded_int it').2)
    else if t = SESSION_TRACK_GTIDS then
      track_session_vars
        { st with reply := { st.reply with vars := st.reply.vars
            ++ [.lastGtid (get_encoded_str (skip_encoded_int (get_encoded_int it').2)).1] } }
        (get_encoded_str (skip_encoded_int (get_encoded_int it').2)).2
    else if t = SESSION_TRACK_TRANSACTION_CHARACTERISTICS then
      track_session_vars
        { st with reply := { st.reply with vars := st.reply.vars
            ++ [.trxCharacteristics (get_encoded_str (get_encoded_int it').2).1] } }
        (get_encoded_str (get_encoded_int it').2).2
    else if t = SESSION_TRACK_SYSTEM_VARIABLES then
      track_session_vars
        { st with reply := { st.reply with vars := st.reply.vars
            ++ [.sysVar (get_encoded_str (get_encoded_int it').2).1
                  (get_encoded_str (get_encoded_str (get_encoded_int it').2).2).1] } }
        (get_encoded_str (get_encoded_str (get_encoded_int it').2).2).2
    else if t = SESSION_TRACK_TRANSACTION_TYPE then
      track_session_vars
        { st with reply := { st.reply with vars := st.reply.vars
            ++ [.trxState (get_encoded_str (get_encoded_int it').2).1] } }
        (get_encoded_str (get_encoded_int it').2).2
    else
      track_session_vars st ((get_encoded_int it').2.drop (get_encoded_int it').1)
termination_by it.length
decreasing_by
  all_goals
    (simp only [List.length_cons]
     first
       | exact track_bound_state _
       | exact track_bound_schema _
       | exact track_bound_gtids _
       | exact track_bound_one_str _
       | exact track_bound_two_str _)

/-- Translation of MariaDBBackendConnection::process_ok_packet. -/
def process_ok_packet (st : TrackState) (p : List Nat) : TrackState :=
  let (_, it) := next_byte p
  let it := skip_encoded_int it
  let it := skip_encoded_int it
  let (s0, it) := next_byte it
  let (s1, it) := next_byte it
  let status := s0 + s1 * 256
  let st := if status &&& SERVER_MORE_RESULTS_EXIST = 0 then set_reply_state st .DONE else st
  let (w0, it) := next_byte it
  let (w1, it) := next_byte it
  let st := { st with reply := { st.reply with warnings := w0 + w1 * 256 } }
  if st.track_session_state ∧ status &&& SERVER_SESSION_STATE_CHANGED ≠ 0 then
    let it := skip_encoded_str it
    let (_, it) := get_encoded_int it
    track_session_vars st it
  else
    st

/-- Translation of MariaDBBackendConnection::process_ps_response; the bytes
read are the command byte, a 4-byte statement id, 2-byte column and
parameter counts. -/
def process_ps_response (st : TrackState) (p : List Nat) : TrackState :=
  let stmt_id := p.getD 1 0 + p.getD 2 0 * 256 + p.getD 3 0 * 65536 + p.getD 4 0 * 16777216
  let columns := p.getD 5 0 + p.getD 6 0 * 256
  let params := p.getD 7 0 + p.getD 8 0 * 256
  let st := { st with reply :=
    { st.reply with generated_id := stmt_id, param_count := params } }
  let ps : Nat := (if columns ≠ 0 then columns + 1 else 0) + (if params ≠ 0 then params + 1 else 0)
  let st := { st with ps_packets := ps }
  set_reply_state st (if ps = 0 then .DONE else .PREPARE)

/-- Translation of MariaDBBackendConnection::update_error; the iterator
passed in points just past the 0xff command byte. -/
def update_error (st : TrackState) (it : List Nat) : TrackState :=
  let (c0, it) := next_byte it
  let (c1, it) := next_byte it
  let (_, it) := next_byte it
  { st with reply := { st.reply with
      err_code := some (c0 + c1 * 256)
      sql_state := it.take 5
      err_msg := it.drop 5 } }

/-- Translation of MariaDBBackendConnection::process_result_start. -/
def process_result_start (st : TrackState) (p : List Nat) : TrackState :=
  let cmd := p.headD 0
  if cmd = MYSQL_REPLY_OK then
    let st := { st with reply := { st.reply with is_ok := true } }
    if st.reply.command = MXS_COM_STMT_PREPARE then process_ps_response st p
    else process_ok_packet st p
  else if cmd = MYSQL_REPLY_LOCAL_INFILE then
    set_reply_state { st with load_active := true } .DONE
  else if cmd = MYSQL_REPLY_ERR then
    set_reply_state (update_error st p.tail) .DONE
  else if cmd = MYSQL_REPLY_EOF then
    st
  else
    let n := (get_encoded_int p).1
    set_reply_state
      { st with
        num_coldefs := n
        reply := { st.reply with field_counts := st.reply.field_counts + n } }
      .RSET_COLDEF

/-- Translation of MariaDBBackendConnection::process_reply_start. -/
def process_reply_start (st : TrackState) (p : List Nat) : TrackState :=
  if st.reply.command = MXS_COM_BINLOG_DUMP then st
  else if st.reply.command = MXS_COM_STATISTICS then set_reply_state st .DONE
  else if st.reply.command = MXS_COM_FIELD_LIST then set_reply_state st .RSET_ROWS
  else process_result_start st p

/-- Translation of MariaDBBackendConnection::process_one_packet; p is the
packet payload and len its length; cmd in the source is the first payload
byte, p.headD 0 here. -/
def process_one_packet (st : TrackState) (p : List Nat) (len : Nat) : TrackState :=
  match st.reply.state with
  | .START => process_reply_start st p
  | .DONE =>
    if p.headD 0 = MYSQL_REPLY_ERR then update_error st p.tail else st
  | .RSET_COLDEF =>
    if st.num_coldefs - 1 = 0 then
      set_reply_state { st with num_coldefs := st.num_coldefs - 1 } .RSET_COLDEF_EOF
    else { st with num_coldefs := st.num_coldefs - 1 }
  | .RSET_COLDEF_EOF =>
    if st.opening_cursor then
      set_reply_state { set_reply_state st .RSET_ROWS with opening_cursor := false } .DONE
    else set_reply_state st .RSET_ROWS
  | .RSET_ROWS =>
    if p.headD 0 = MYSQL_REPLY_EOF ∧ len = MYSQL_EOF_PACKET_LEN - MYSQL_HEADER_LEN then
      { set_reply_state st (if is_last_eof p then .DONE else .START) with
        reply := { (set_reply_state st (if is_last_eof p then .DONE else .START)).reply with
          warnings := p.getD 1 0 + p.getD 2 0 * 256 } }
    else if p.headD 0 = MYSQL_REPLY_ERR then
      set_reply_state (update_error st p.tail) .DONE
    else
      { st with reply := { st.reply with rows := st.reply.rows + 1 } }
  | .PREPARE =>
    if st.ps_packets - 1 = 0 then
      set_reply_state { st with ps_packets := st.ps_packets - 1 } .DONE
    else { st with ps_packets := st.ps_packets - 1 }

/-- Body of one iteration of the process_packets loop: note the previous
skip_next, re-arm it from the current packet length, and feed the payload
to process_one_packet unless the packet is skipped. -/
def pp_step (st : TrackState) (payload : List Nat) (len : Nat) : TrackState :=
  if st.skip_next then { st with skip_next := decide (len = GW_MYSQL_MAX_PACKET_LEN) }
  else process_one_packet { st with skip_next := decide (len = GW_MYSQL_MAX_PACKET_LEN) }
    payload len

/-- Translation of MariaDBBackendConnection::process_packets: the loop over
complete packets of a buffer.  The result carries the final tracking state,
the number of bytes used (whole packets), and, as instrumentation of the
control flow, the number of process_one_packet invocations. -/
def process_packets (st : TrackState) (buf : List Nat) : TrackState × Nat × Nat :=
  match buf with
  | b0 :: b1 :: b2 :: _seq :: rest =>
    if rest.length < b0 + b1 * 256 + b2 * 65536 then (st, 0, 0)
    else
      ((process_packets
          (pp_step st (rest.take (b0 + b1 * 256 + b2 * 65536)) (b0 + b1 * 256 + b2 * 65536))
          (rest.drop (b0 + b1 * 256 + b2 * 65536))).1,
       MYSQL_HEADER_LEN + (b0 + b1 * 256 + b2 * 65536)
         + (process_packets
             (pp_step st (rest.take (b0 + b1 * 256 + b2 * 65536)) (b0 + b1 * 256 + b2 * 65536))
             (rest.drop (b0 + b1 * 256 + b2 * 65536))).2.1,
       (if st.skip_next then 0 else 1)
         + (process_packets
             (pp_step st (rest.take (b0 + b1 * 256 + b2 * 65536)) (b0 + b1 * 256 + b2 * 65536))
             (rest.drop (b0 + b1 * 256 + b2 * 65536))).2.2)
  | _ => (st, 0, 0)
termination_by buf.length
decreasing_by
  all_goals
    simp only [List.length_cons, List.length_drop]
    omega

/-- Wire framing of one packet: 3-byte little-endian payload length, a
sequence byte, then the payload. -/
def mk_packet (seq : Nat) (payload : List Nat) : List Nat :=
  payload.length % 256 :: payload.length / 256 % 256 :: payload.length / 65536 % 256
    :: seq :: payload

/-- Iterated process_one_packet over a list of packet payloads, as the
process_packets loop performs for consecutive non-skipped packets. -/
def process_list (st : TrackState) (ps : List (List Nat)) : TrackState :=
  ps.foldl (fun s p => process_one_packet s p p.length) st

/-!
ClustrixNode (clustrixnode.hh).

The node state gathers the fields that set_running reads and writes:
the health-check countdown m_nRunning, the threshold
m_health_check_threshold, and the backing server's status bits.  The
Persister interface is modelled by counting its persist and unpersist
calls, which is what the claims observe.
-/

structure ClustrixNode where
  health_check_threshold : Nat
  nRunning : Nat
  serverStatus : Nat
  persistCalls : Nat
  unpersistCalls : Nat
  deriving Repr, DecidableEq

namespace ClustrixNode

inductive Approach
  | overrideApproach
  | defaultApproach
  deriving Repr, DecidableEq

/-- Clearing status bits: status &= ~mask, over 64-bit status words. -/
def clear_bits (s mask : Nat) : Nat := s &&& (0xffffffffffffffff - mask)

/-- Constructor body of ClustrixNode: countdown starts at the threshold,
the backing server gets MASTER and RUNNING set, and the node is persisted
once. -/
def init (threshold : Nat) (status0 : Nat) : ClustrixNode :=
  { health_check_threshold := threshold
    nRunning := threshold
    serverStatus := status0 ||| (SERVER_MASTER ||| SERVER_RUNNING)
    persistCalls := 1
    unpersistCalls := 0 }

/-- ClustrixNode::is_running: m_nRunning > 0. -/
def is_running (n : ClustrixNode) : Bool := 0 < n.nRunning

/-- ClustrixNode::set_running, translated clause by clause. -/
def set_running (n : ClustrixNode) (running : Bool)
    (approach : Approach := .defaultApproach) : ClustrixNode :=
  if running then
    let n' :=
      if n.nRunning = 0 then
        { n with
          serverStatus := n.serverStatus ||| (SERVER_MASTER ||| SERVER_RUNNING)
          persistCalls := n.persistCalls + 1 }
      else n
    { n' with nRunning := n.health_check_threshold }
  else
    if 0 < n.nRunning then
      let m : Nat :=
        match approach with
        | .overrideApproach => 0
        | .defaultApproach => n.nRunning - 1
      let n' := { n with nRunning := m }
      if m = 0 then
        { n' with
          serverStatus := clear_bits n'.serverStatus (SERVER_MASTER ||| SERVER_RUNNING)
          unpersistCalls := n'.unpersistCalls + 1 }
      else n'
    else n

/-- Iterated failed health pings with the default approach, as performed by
ClustrixMonitor::check_http when the HTTP status is not 200. -/
def iter_fail (n : ClustrixNode) : Nat → ClustrixNode
  | 0 => n
  | k + 1 => iter_fail (set_running n false) k

lemma set_running_false_nRunning (n : ClustrixNode) :
    (set_running n false).nRunning = n.nRunning - 1 := by
  unfold set_running
  by_cases h : 0 < n.nRunning
  · simp only [if_neg (Bool.false_ne_true), if_pos h]
    by_cases hm : n.nRunning - 1 = 0 <;> simp [hm]
  · simp only [if_neg (Bool.false_ne_true), if_neg h]
    omega

lemma set_running_false_threshold (n : ClustrixNode) :
    (set_running n false).health_check_threshold = n.health_check_threshold := by
  unfold set_running
  by_cases h : 0 < n.nRunning
  · simp only [if_neg (Bool.false_ne_true), if_pos h]
    by_cases hm : n.nRunning - 1 = 0 <;> simp [hm]
  · simp [h]

lemma set_running_false_unpersist (n : ClustrixNode) :
    (set_running n false).unpersistCalls =
      n.unpersistCalls + (if n.nRunning = 1 then 1 else 0) := by
  unfold set_running
  by_cases h : 0 < n.nRunning
  · simp only [if_neg (Bool.false_ne_true), if_pos h]
    by_cases hm : n.nRunning - 1 = 0
    · have : n.nRunning = 1 := by omega
      simp [hm, this]
    · have : ¬ n.nRunning = 1 := by omega
      simp [hm, this]
  · have : ¬ n.nRunning = 1 := by omega
    simp [set_running, h, this]

lemma iter_fail_unpersist (k : Nat) (n : ClustrixNode) :
    (iter_fail n k).unpersistCalls =
      n.unpersistCalls + (if 0 < n.nRunning ∧ n.nRunning ≤ k then 1 else 0) := by
  induction k generalizing n with
  | zero =>
    simp [iter_fail]
    omega
  | succ k ih =>
    rw [iter_fail, ih, set_running_false_unpersist, set_running_false_nRunning]
    split_ifs <;> omega

end ClustrixNode

/-!
Writer-side state machine of MariaDBBackendConnection (mariadb_backend.cc:
write, handle_persistent_connection, change_user, reuse_connection, ping,
backend_write_delayqueue, and the part of normal_read that handles replies
to ignorable commands).

The model carries the connection fields these functions read and write.
The resultset-tracking fields driven by process_packets are modelled
separately by TrackState above; here only the command tracking of
track_query is needed (m_reply.command(), m_large_query, load-active).
A client command packet is represented by its command byte, payload
length and buffer flags; buffer contents that the functions do not
inspect are not carried.
-/

def MXS_COM_PING : Nat := 0x0e

/-- Protocol states of MariaDBBackendConnection::State. -/
inductive ConnState
  | HANDSHAKING
  | AUTHENTICATING
  | CONNECTION_INIT
  | SEND_DELAYQ
  | ROUTING
  | FAILED
  deriving Repr, DecidableEq

/-- A client command buffer as seen by write: command byte, payload length
and the gwbuf flags consulted by prepare_for_write and write. -/
structure MPacket where
  cmd : Nat
  payload_len : Nat
  ignorable : Bool
  collect : Bool
  track_state : Bool
  deriving Repr, DecidableEq

/-- Writes and events emitted towards the backend DCB. -/
inductive WAction
  | writePacket (p : MPacket)
  | writeChangeUser (scramble : Nat)
  | writeNativePwResponse (scramble : Nat)
  | hangup
  deriving Repr, DecidableEq

/-- Connection fields of MariaDBBackendConnection used by the writer-side
functions.  The scramble is carried as an abstract token; persist_pool_max
is the target server's persistpoolmax setting, so that
m_server.persistent_conns_enabled() is 0 < persist_pool_max. -/
structure Conn where
  state : ConnState
  ignore_replies : Int
  changing_user : Bool
  reply_command : Nat
  large_query : Bool
  load_active : Bool
  collect_result : Bool
  track_state : Bool
  delayed_packets : List MPacket
  stored_query : List MPacket
  scramble : Nat
  persist_pool_max : Nat
  deriving Repr, DecidableEq

/-- Translation of MariaDBBackendConnection::track_query restricted to the
fields of Conn (the reply-state bookkeeping for resultsets lives in
TrackState). -/
def track_query (c : Conn) (p : MPacket) : Conn :=
  if c.changing_user then c
  else
    let c :=
      if c.load_active then
        if p.payload_len = 0 then { c with load_active := false } else c
      else if ¬ c.large_query then { c with reply_command := p.cmd }
      else c
    { c with large_query := decide (p.payload_len = GW_MYSQL_MAX_PACKET_LEN) }

/-- Translation of MariaDBBackendConnection::prepare_for_write. -/
def prepare_for_write (c : Conn) (p : MPacket) : Conn :=
  let c := if ¬ p.ignorable then track_query c p else c
  let c := if p.collect then { c with collect_result := true } else c
  { c with track_state := p.track_state }

/-- Translation of MariaDBBackendConnection::handle_persistent_connection,
called by write when ignore_replies > 0.  Returns the new state, the rc of
write, and the emitted actions. -/
def handle_persistent_connection (c : Conn) (p : MPacket) : Conn × Nat × List WAction :=
  if p.cmd = MXS_COM_QUIT then (c, 0, [.hangup])
  else ({ c with stored_query := c.stored_query ++ [p] }, 1, [])

/-- Translation of MariaDBBackendConnection::send_change_user_to_backend;
writeOk is the result of writeq_append.  The change-user packet built by
create_change_user_packet is represented by the scramble it was rebuilt
with. -/
def send_change_user_to_backend (c : Conn) (writeOk : Bool) : Conn × Bool × List WAction :=
  if writeOk then ({ c with changing_user := true }, true, [.writeChangeUser c.scramble])
  else (c, false, [])

/-- Translation of MariaDBBackendConnection::write. -/
def write (c : Conn) (p : MPacket) (writeOk : Bool) : Conn × Nat × List WAction :=
  if 0 < c.ignore_replies then handle_persistent_connection c p
  else
    match c.state with
    | .FAILED => (c, 0, [])
    | .ROUTING =>
      let c := prepare_for_write c p
      if c.reply_command = MXS_COM_CHANGE_USER then
        let r := send_change_user_to_backend c writeOk
        (r.1, if r.2.1 then 1 else 0, r.2.2)
      else if p.cmd = MXS_COM_QUIT ∧ 0 < c.persist_pool_max then
        (c, 1, [])
      else
        let c := if p.ignorable then { c with ignore_replies := c.ignore_replies + 1 } else c
        (c, if writeOk then 1 else 0, if writeOk then [.writePacket p] else [])
    | _ => ({ c with delayed_packets := c.delayed_packets ++ [p] }, 1, [])

/-- Ignorable ping packet built by modutil_create_ignorable_ping. -/
def ignorable_ping : MPacket :=
  { cmd := MXS_COM_PING, payload_len := 1, ignorable := true, collect := false
    track_state := false }

/-- Translation of MariaDBBackendConnection::ping; replyDone is whether
m_reply.state() == ReplyState::DONE. -/
def ping (c : Conn) (replyDone : Bool) (writeOk : Bool) : Conn × List WAction :=
  if replyDone then
    let r := write c ignorable_ping writeOk
    (r.1, r.2.2)
  else (c, [])

/-- Translation of MariaDBBackendConnection::reuse_connection; dcbPolling is
whether the pooled DCB is in DCB::State::POLLING, writeOk the result of
writeq_append on the rebuilt COM_CHANGE_USER packet. -/
def reuse_connection (c : Conn) (dcbPolling : Bool) (writeOk : Bool) :
    Conn × Bool × List WAction :=
  if ¬ (dcbPolling = true ∧ c.state = .ROUTING ∧ c.delayed_packets = []) then
    (c, false, [])
  else
    let c := { c with ignore_replies := 0, stored_query := [] }
    if writeOk then
      ({ c with ignore_replies := c.ignore_replies + 1 }, true, [.writeChangeUser c.scramble])
    else
      (c, false, [])

/-- Translation of MariaDBBackendConnection::backend_write_delayqueue; p is
the head packet of the released delayed queue. -/
def backend_write_delayqueue (c : Conn) (p : MPacket) (writeOk : Bool) :
    Conn × Bool × List WAction :=
  if p.cmd = MXS_COM_CHANGE_USER then
    send_change_user_to_backend c writeOk
  else if p.cmd = MXS_COM_QUIT ∧ 0 < c.persist_pool_max then
    (c, true, [])
  else
    (c, writeOk, if writeOk then [.writePacket p] else [])

/-- Observable features of a complete reply buffer, as inspected by the
ignored-reply part of normal_read: whether the buffer is an
AuthSwitchRequest for the default plugin, whether writing the
native-password response succeeded, the command byte of the last packet,
and the result of re-writing the stored query. -/
structure ReadEvent where
  auth_switch : Bool
  default_plugin : Bool
  resp_write_ok : Bool
  last_cmd : Nat
  stored_write_ok : Bool
  deriving Repr, DecidableEq

/-- Part of MariaDBBackendConnection::normal_read handling the reply to an
ignorable command (m_ignore_replies > 0); when ignore_replies = 0 the
remainder of normal_read routes the reply onward without touching the
fields of Conn. -/
def read_ignored_reply (c : Conn) (ev : ReadEvent) : Conn × List WAction :=
  if 0 < c.ignore_replies then
    let q := c.stored_query
    let c1 := { c with stored_query := [], ignore_replies := c.ignore_replies - 1 }
    if ev.last_cmd = MYSQL_REPLY_OK then
      match q with
      | [] => (c1, [])
      | p :: _ =>
        let r := write c1 p ev.stored_write_ok
        (r.1, r.2.2)
    else if ev.auth_switch then
      if ev.default_plugin ∧ ev.resp_write_ok then
        ({ c1 with stored_query := q, ignore_replies := c1.ignore_replies + 1 },
         [.writeNativePwResponse c1.scramble])
      else
        (c1, [.hangup])
    else
      (c1, [.hangup])
  else
    (c, [])

/-- Translation of the part of MariaDBBackendConnection::normal_read that
handles m_changing_user and replies to ignorable commands. -/
def normal_read_model (c : Conn) (ev : ReadEvent) : Conn × List WAction :=
  if c.changing_user ∧ ev.auth_switch ∧ ev.default_plugin ∧ ev.resp_write_ok then
    (c, [.writeNativePwResponse c.scramble])
  else
    let c := if c.changing_user then { c with changing_user := false } else c
    read_ignored_reply c ev

/-- Operations that drive a backend connection, for stating invariants over
all reachable states. -/
inductive ConnOp
  | writeOp (p : MPacket) (writeOk : Bool)
  | readOp (ev : ReadEvent)
  | reuseOp (dcbPolling : Bool) (writeOk : Bool)
  | pingOp (replyDone : Bool) (writeOk : Bool)

def conn_step (c : Conn) (op : ConnOp) : Conn :=
  match op with
  | .writeOp p ok => (write c p ok).1
  | .readOp ev => (normal_read_model c ev).1
  | .reuseOp pol ok => (reuse_connection c pol ok).1
  | .pingOp done ok => (ping c done ok).1

def conn_run (c : Conn) (ops : List ConnOp) : Conn := ops.foldl conn_step c

/-- Operations that send a synthetic command whose reply must be swallowed:
an ignorable-flagged packet (the ping is one), or the COM_CHANGE_USER sent
on pool reuse. -/
def synthetic_send : ConnOp → Prop
  | .writeOp p _ => p.ignorable = true
  | .readOp _ => False
  | .reuseOp _ _ => True
  | .pingOp _ _ => True

/-!
Per-worker persistent connection pool of RoutingWorker (routingworker.cc:
can_be_destroyed, evict_dcbs, evict_dcb, close_pooled_dcb,
get_backend_dcb_from_pool).

The model follows one target server; DCBs are identified by numbers.  The
worker state carries the active-DCB registry m_dcbs, the persistent
entries for the server, the m_evicting flag, and the server's shared
n_persistent counter read by mxb::atomic::add_limited.
-/

structure PoolEntry where
  dcb : Nat
  created : Int
  hanged_up : Bool
  deriving Repr, DecidableEq

/-- Server attributes read by the pool: is_running(), persistpoolmax() and
persistmaxtime(). -/
structure ServerInfo where
  running : Bool
  persistpoolmax : Nat
  persistmaxtime : Int
  deriving Repr, DecidableEq

structure WorkerState where
  dcbs : List Nat
  entries : List PoolEntry
  evicting : Bool
  n_persistent : Int
  deriving Repr, DecidableEq

inductive EvictKind
  | EXPIRED
  | ALL
  deriving Repr, DecidableEq

/-- Events recorded on a DCB during pool maintenance. -/
inductive PAction
  | addActive (d : Nat)
  | disableEvents (d : Nat)
  | shutdownDcb (d : Nat)
  | closeDcb (d : Nat)
  deriving Repr, DecidableEq

/-- Loop body of RoutingWorker::evict_dcbs: walk the entries, keeping a
count of surviving entries; an entry is evicted when it is hung up,
expired (or kind is ALL), or the running count exceeds persistpoolmax.
Returns the surviving entries, the evicted DCBs in order, and the final
count. -/
def evict_walk (now : Int) (srv : ServerInfo) (kind : EvictKind) :
    List PoolEntry → Nat → List PoolEntry × List Nat × Nat
  | [], count => ([], [], count)
  | e :: rest, count =>
    if e.hanged_up = true ∨ kind = .ALL ∨ srv.persistmaxtime < now - e.created
        ∨ srv.persistpoolmax < count then
      let r := evict_walk now srv kind rest count
      (r.1, e.dcb :: r.2.1, r.2.2)
    else
      let r := evict_walk now srv kind rest (count + 1)
      (e :: r.1, r.2.1, r.2.2)

/-- Translation of RoutingWorker::close_pooled_dcb: the DCB goes back into
the regular book-keeping, then its events are disabled and it is shut down
(when still polling) and closed.  The action trace records the order. -/
def close_pooled_dcb (st : WorkerState) (d : Nat) (polling : Bool) :
    WorkerState × List PAction :=
  ({ st with dcbs := st.dcbs ++ [d] },
   .addActive d :: ((if polling then [.disableEvents d, .shutdownDcb d] else []) ++ [.closeDcb d]))

/-- Translation of RoutingWorker::evict_dcbs(SERVER*, Evict): a server that
is not running forces eviction of all entries; evicted DCBs are closed via
close_pooled_dcb; the returned number is the count of surviving entries.
The polling argument tells which DCBs are still in polling state. -/
def evict_dcbs (st : WorkerState) (srv : ServerInfo) (kind : EvictKind) (now : Int)
    (polling : Nat → Bool) : WorkerState × Nat × List PAction :=
  let kind := if ¬ srv.running then .ALL else kind
  let w := evict_walk now srv kind st.entries 0
  let st := { st with entries := w.1, n_persistent := st.n_persistent - w.2.1.length }
  let r := w.2.1.foldl
    (fun (acc : WorkerState × List PAction) d =>
      let cr := close_pooled_dcb acc.1 d (polling d)
      (cr.1, acc.2 ++ cr.2))
    (st, [])
  (r.1, w.2.2, r.2)

/-- Translation of RoutingWorker::can_be_destroyed, for a backend DCB of
the modelled server: the DCB is parked in the pool (and the function
returns false) when the worker is not evicting, the DCB is polling, the
protocol is established, there is a session that was valid for pooling,
persistpoolmax is positive, the server is running, the DCB has not hung
up, the count of live entries left by the expiry sweep is below
persistpoolmax, and the atomic add_limited on n_persistent succeeds. -/
def can_be_destroyed (st : WorkerState) (srv : ServerInfo) (d : Nat)
    (dcbPolling established session_valid hanged : Bool) (now : Int)
    (polling : Nat → Bool) : WorkerState × Bool × List PAction :=
  if st.evicting then (st, true, [])
  else if dcbPolling = true ∧ established = true ∧ session_valid = true
      ∧ 0 < srv.persistpoolmax ∧ srv.running = true ∧ hanged = false then
    let r := evict_dcbs st srv .EXPIRED now polling
    if r.2.1 < srv.persistpoolmax then
      if r.1.n_persistent < srv.persistpoolmax then
        ({ r.1 with
            n_persistent := r.1.n_persistent + 1
            entries := r.1.entries ++ [{ dcb := d, created := now, hanged_up := false }]
            dcbs := r.1.dcbs.erase d },
         false, r.2.2)
      else (r.1, true, r.2.2)
    else (r.1, true, r.2.2)
  else (st, true, [])

/-- Loop of RoutingWorker::get_backend_dcb_from_pool after the expiry
sweep: pop entries until one reuses successfully; a failed reuse closes
the DCB without putting it back into the active set. -/
def pool_take_loop (st : WorkerState) (reuse_ok polling : Nat → Bool) :
    WorkerState × Option Nat × List PAction :=
  match h : st.entries with
  | [] => (st, none, [])
  | e :: rest =>
    let st1 := { st with entries := rest, n_persistent := st.n_persistent - 1 }
    if reuse_ok e.dcb then
      ({ st1 with dcbs := st1.dcbs ++ [e.dcb] }, some e.dcb, [])
    else
      let acts := (if polling e.dcb then [PAction.disableEvents e.dcb, .shutdownDcb e.dcb]
                   else []) ++ [.closeDcb e.dcb]
      let r := pool_take_loop st1 reuse_ok polling
      (r.1, r.2.1, acts ++ r.2.2)
termination_by st.entries.length
decreasing_by simp [h]

/-- Translation of RoutingWorker::get_backend_dcb_from_pool. -/
def get_backend_dcb_from_pool (st : WorkerState) (srv : ServerInfo) (now : Int)
    (reuse_ok polling : Nat → Bool) : WorkerState × Option Nat × List PAction :=
  let r := evict_dcbs st srv .EXPIRED now polling
  let t := pool_take_loop r.1 reuse_ok polling
  (t.1, t.2.1, r.2.2 ++ t.2.2)

/-- Translation of RoutingWorker::evict_dcb: remove the specific entry and
close its DCB. -/
def evict_dcb (st : WorkerState) (d : Nat) (polling : Nat → Bool) :
    WorkerState × List PAction :=
  let st1 := { st with
    entries := st.entries.filter (fun e => e.dcb ≠ d)
    n_persistent := st.n_persistent - 1 }
  close_pooled_dcb st1 d (polling d)

/-- Operations on a worker's pool state. -/
inductive WOp
  | destroyOp (srv : ServerInfo) (d : Nat)
      (dcbPolling established session_valid hanged : Bool) (now : Int) (polling : Nat → Bool)
  | evictOp (srv : ServerInfo) (kind : EvictKind) (now : Int) (polling : Nat → Bool)
  | evictOneOp (d : Nat) (polling : Nat → Bool)
  | takeOp (srv : ServerInfo) (now : Int) (reuse_ok polling : Nat → Bool)

def worker_step (st : WorkerState) (op : WOp) : WorkerState :=
  match op with
  | .destroyOp srv d pol est sv h now p => (can_be_destroyed st srv d pol est sv h now p).1
  | .evictOp srv kind now p => (evict_dcbs st srv kind now p).1
  | .evictOneOp d p => (evict_dcb st d p).1
  | .takeOp srv now r p => (get_backend_dcb_from_pool st srv now r p).1

/-- Disjointness invariant of a worker: the active-DCB registry and the
pooled entries never share a DCB (and neither holds duplicates). -/
def WInv (st : WorkerState) : Prop :=
  st.dcbs.Nodup ∧ (st.entries.map PoolEntry.dcb).Nodup
    ∧ ∀ d ∈ st.dcbs, d ∉ st.entries.map PoolEntry.dcb

/-!
Capability negotiation (mariadb_backend.cc: create_capabilities and
gw_generate_auth_response).

The individual capability bits are the MySQL client-server protocol
constants.  The combined bitset GW_MYSQL_CAPABILITIES_CLIENT is modelled
from the spec: it is the fixed client-compatible bitset the handshake
response is masked with; its defining header is not among the sources.
-/

def GW_MYSQL_CAPABILITIES_CONNECT_WITH_DB : Nat := 8
def GW_MYSQL_CAPABILITIES_SSL : Nat := 2048
def GW_MYSQL_CAPABILITIES_MULTI_STATEMENTS : Nat := 65536
def GW_MYSQL_CAPABILITIES_PLUGIN_AUTH : Nat := 524288
def GW_MYSQL_CAPABILITIES_CONNECT_ATTRS : Nat := 1048576
def GW_MYSQL_CAPABILITIES_SESSION_TRACK : Nat := 8388608

/-- Modelled from the spec: the fixed client-compatible bitset
GW_MYSQL_CAPABILITIES_CLIENT (long password, found rows, long flag,
connect-with-db, local files, protocol 4.1, transactions, secure
connection, multi statements, multi results, PS multi results, plugin
auth, connect attrs, session track). -/
def GW_MYSQL_CAPABILITIES_CLIENT : Nat :=
  1 ||| 2 ||| 4 ||| 8 ||| 128 ||| 512 ||| 8192 ||| 32768 ||| 65536 ||| 131072
    ||| 262144 ||| 524288 ||| 1048576 ||| 8388608

/-- Translation of MariaDBBackendConnection::create_capabilities;
client_caps is the client's own negotiated capability mask
(client_data->client_capabilities()), session_track whether the service
requires RCAP_TYPE_SESSION_STATE_TRACKING.  The clear of
CONNECT_WITH_DB (&= ~bit on a uint32) is the 32-bit complement mask. -/
def create_capabilities (client_caps : Nat) (with_ssl session_track db_specified : Bool) :
    Nat :=
  let fc := client_caps &&& GW_MYSQL_CAPABILITIES_CLIENT
  let fc := if with_ssl then fc ||| GW_MYSQL_CAPABILITIES_SSL else fc
  let fc := if session_track then fc ||| GW_MYSQL_CAPABILITIES_SESSION_TRACK else fc
  let fc := fc ||| GW_MYSQL_CAPABILITIES_MULTI_STATEMENTS
  let fc :=
    if db_specified then fc ||| GW_MYSQL_CAPABILITIES_CONNECT_WITH_DB
    else fc &&& (0xffffffff - GW_MYSQL_CAPABILITIES_CONNECT_WITH_DB)
  fc ||| GW_MYSQL_CAPABILITIES_PLUGIN_AUTH

/-- Capability mask as the spec states it: the client's negotiated mask
AND the fixed client-compatible bitset, OR'ed with SSL iff TLS is
requested, SESSION_TRACK iff the service requires session-state tracking,
MULTI_STATEMENTS always, CONNECT_WITH_DB iff an initial database was
chosen (the bit cleared otherwise), and PLUGIN_AUTH always. -/
def spec_capabilities (client_caps : Nat) (with_ssl session_track db_specified : Bool) :
    Nat :=
  let base := (client_caps &&& GW_MYSQL_CAPABILITIES_CLIENT)
    ||| (if with_ssl then GW_MYSQL_CAPABILITIES_SSL else 0)
    ||| (if session_track then GW_MYSQL_CAPABILITIES_SESSION_TRACK else 0)
    ||| GW_MYSQL_CAPABILITIES_MULTI_STATEMENTS
    ||| (if db_specified then GW_MYSQL_CAPABILITIES_CONNECT_WITH_DB else 0)
    ||| GW_MYSQL_CAPABILITIES_PLUGIN_AUTH
  if db_specified then base
  else base &&& (0xffffffff - GW_MYSQL_CAPABILITIES_CONNECT_WITH_DB)

/-- Assembly of the handshake response in gw_generate_auth_response, at the
granularity the connect-attrs claim needs: the function computes the
capability mask via create_capabilities and appends the connect-attrs blob
only inside the guard (capabilities AND server_capabilities AND
CONNECT_ATTRS) with a nonempty blob on a non-SSL or SSL-established
response. -/
def gw_generate_auth_response (client_caps server_caps : Nat)
    (with_ssl ssl_established session_track db_specified : Bool)
    (attrs_nonempty : Bool) : Nat × Bool :=
  let capabilities := create_capabilities client_caps with_ssl session_track db_specified
  let appended :=
    (¬ with_ssl ∨ ssl_established = true)
      ∧ capabilities &&& server_caps &&& GW_MYSQL_CAPABILITIES_CONNECT_ATTRS ≠ 0
      ∧ attrs_nonempty = true
  (capabilities, decide appended)

/-!
Connection-init queries (mariadb_backend.cc:
send_connection_init_queries).  The sending phase writes the configured
queries concatenated in one buffer and expects one OK packet per query;
the receiving loop classifies each complete packet read from the backend.
-/

/-- Results of read_protocol_packet as consumed by the receiving loop. -/
inductive InitRead
  | sockErr
  | partialRead
  | packet (buf : List Nat)

/-- Outcome of one pass through send_connection_init_queries. -/
inductive SMRes
  | ERROR
  | IN_PROGRESS
  | DONE
  deriving Repr, DecidableEq

inductive ErrType
  | TRANSIENT
  | PERMANENT
  deriving Repr, DecidableEq

/-- Classification of a complete packet by the receiving loop: a
header-only buffer is an empty packet, 0xff an error packet, any other
non-OK command byte a resultset packet; an OK packet yields none. -/
def wrong_packet_type (buf : List Nat) : Option String :=
  if buf.length = MYSQL_HEADER_LEN then some "an empty packet"
  else if buf.getD 4 0 = MYSQL_REPLY_ERR then some "an error packet"
  else if buf.getD 4 0 ≠ MYSQL_REPLY_OK then some "a resultset packet"
  else none

/-- Error message built for a failed init query. -/
def init_query_errmsg (query wrong : String) : String :=
  "Connection initialization query '" ++ query ++ "' returned " ++ wrong ++ "."

/-- Result of the receiving loop: OK packets counted, the rval variable,
and the do_handle_error call, if any, with its error type and message. -/
structure RecvRes where
  received : Nat
  res : SMRes
  err : Option (ErrType × String)
  deriving Repr, DecidableEq

/-- Receiving loop of send_connection_init_queries (state RECEIVING),
driven by the stream of read results.  A socket error reports a transient
error and the loop continues; an incomplete read marks IN_PROGRESS and the
loop continues; a non-OK packet reports a permanent error naming the query
at index ok_packets_received and stops; an OK packet increments the
count.  When the stream ends before the loop exits the current rval
stands. -/
def recv_init_loop (queries : List String) (expected : Nat) :
    Nat → SMRes → Option (ErrType × String) → List InitRead → RecvRes
  | received, res, err, [] =>
    if received = expected then ⟨received, .DONE, err⟩ else ⟨received, res, err⟩
  | received, res, err, r :: rest =>
    if received < expected then
      match r with
      | .sockErr =>
        recv_init_loop queries expected received res (some (.TRANSIENT, "Socket error")) rest
      | .partialRead =>
        recv_init_loop queries expected received .IN_PROGRESS err rest
      | .packet buf =>
        match wrong_packet_type buf with
        | none => recv_init_loop queries expected (received + 1) res err rest
        | some wrong =>
          let msg := init_query_errmsg (queries.getD received "") wrong
          ⟨received, res, some (.PERMANENT, msg)⟩
    else if received = expected then ⟨received, .DONE, err⟩
    else ⟨received, res, err⟩

/-- Sending phase of send_connection_init_queries: with no configured
queries the state machine is DONE at once; otherwise the concatenated
buffer_contents is written in a single writeq_append and one OK packet per
query is expected. -/
def send_init_queries (queries : List String) (buffer_contents : List Nat) :
    SMRes × List (List Nat) × Nat :=
  if queries.isEmpty then (.DONE, [], 0)
  else (.IN_PROGRESS, [buffer_contents], queries.length)

open ClustrixNode in
/-- C3: for a ClustrixNode with health_check_threshold t, is_running() is
true iff the countdown is > 0; a failed ping (set_running false) decrements
the countdown only while it is > 0, and on the transition to 0 the server's
MASTER and RUNNING bits are cleared and unpersist is called exactly once
(iterated failed pings call it at most once in total); a successful ping
resets the countdown to t and re-sets the bits and persists only when the
countdown was 0. -/
theorem c3_clustrix_node_countdown (n : ClustrixNode) (k : Nat) :
    (is_running n = true ↔ 0 < n.nRunning)
    ∧ (0 < n.nRunning → (set_running n false).nRunning = n.nRunning - 1)
    ∧ (n.nRunning = 0 → set_running n false = n)
    ∧ (n.nRunning = 1 →
        (set_running n false).serverStatus &&& (SERVER_MASTER ||| SERVER_RUNNING) = 0
        ∧ (set_running n false).unpersistCalls = n.unpersistCalls + 1)
    ∧ (iter_fail n k).unpersistCalls =
        n.unpersistCalls + (if 0 < n.nRunning ∧ n.nRunning ≤ k then 1 else 0)
    ∧ (set_running n true).nRunning = n.health_check_threshold
    ∧ (n.nRunning = 0 →
        (set_running n true).serverStatus &&& (SERVER_MASTER ||| SERVER_RUNNING)
            = SERVER_MASTER ||| SERVER_RUNNING
        ∧ (set_running n true).persistCalls = n.persistCalls + 1)
    ∧ (0 < n.nRunning →
        (set_running n true).persistCalls = n.persistCalls
        ∧ (set_running n true).serverStatus = n.serverStatus) := by
  refine ⟨by simp [is_running], ?_, ?_, ?_, iter_fail_unpersist k n, ?_, ?_, ?_⟩
  · intro h
    exact set_running_false_nRunning n
  · intro h
    have h' : ¬ 0 < n.nRunning := by omega
    simp [set_running, h']
  · intro h
    constructor
    · simp only [set_running, if_neg (Bool.false_ne_true), h]
      norm_num [clear_bits]
      exact land_land_of_disjoint _ _ _ (by decide)
    · simp [set_running, h]
  · by_cases h : n.nRunning = 0 <;> simp [set_running, h]
  · intro h
    constructor
    · simp only [set_running, if_pos rfl, h, if_pos]
      exact lor_land_self _ _
    · simp [set_running, h]
  · intro h
    have h' : ¬ n.nRunning = 0 := by omega
    exact ⟨by simp [set_running, h'], by simp [set_running, h']⟩

open ClustrixNode in
/-- Witness for c3_clustrix_node_countdown at a node with threshold 3 and
countdown 1. -/
theorem c3_clustrix_node_countdown_witness :
    is_running ⟨3, 1, 5, 1, 0⟩ = true
    ∧ (set_running ⟨3, 1, 5, 1, 0⟩ false).serverStatus
        &&& (SERVER_MASTER ||| SERVER_RUNNING) = 0
    ∧ (set_running ⟨3, 1, 5, 1, 0⟩ false).unpersistCalls = 1
    ∧ (iter_fail ⟨3, 1, 5, 1, 0⟩ 4).unpersistCalls = 1
    ∧ (set_running ⟨3, 0, 0, 1, 1⟩ true).persistCalls = 2 := by
  have h := c3_clustrix_node_countdown ⟨3, 1, 5, 1, 0⟩ 4
  have h0 := c3_clustrix_node_countdown ⟨3, 0, 0, 1, 1⟩ 0
  refine ⟨h.1.2 (by decide), (h.2.2.2.1 (by decide)).1, ?_, ?_, ?_⟩
  · have := (h.2.2.2.1 (by decide)).2
    simpa using this
  · have := h.2.2.2.2.1
    simpa using this
  · have := (h0.2.2.2.2.2.2.1 (by decide)).2
    simpa using this

/-- C1: for a backend connection taken from the worker pool (such a
connection has ignore_replies = 0, enforced by the established() gate of
can_be_destroyed and untouched while parked), reuse_connection returns
false unless the DCB is polling, the protocol state is Routing and the
delayed-packet queue is empty; whenever it returns true, a
COM_CHANGE_USER packet rebuilt with the current scramble has been written
and ignore_replies has been incremented. -/
theorem c1_reuse_connection (c : Conn) (pol ok : Bool)
    (h0 : c.ignore_replies = 0) :
    (¬ (pol = true ∧ c.state = .ROUTING ∧ c.delayed_packets = []) →
      (reuse_connection c pol ok).2.1 = false)
    ∧ ((reuse_connection c pol ok).2.1 = true →
        (reuse_connection c pol ok).2.2 = [.writeChangeUser c.scramble]
        ∧ (reuse_connection c pol ok).1.ignore_replies = c.ignore_replies + 1) := by
  constructor
  · intro h
    simp [reuse_connection, h]
  · intro h
    by_cases hc : pol = true ∧ c.state = .ROUTING ∧ c.delayed_packets = []
    · cases ok with
      | false => simp [reuse_connection, hc] at h
      | true => simp [reuse_connection, hc, h0]
    · simp [reuse_connection, hc] at h

/-- Witness for c1_reuse_connection on a routing connection with an empty
delayed queue. -/
theorem c1_reuse_connection_witness :
    (reuse_connection ⟨.ROUTING, 0, false, 0, false, false, false, false, [], [], 9, 5⟩
        true true).2.1 = true
    ∧ (reuse_connection ⟨.ROUTING, 0, false, 0, false, false, false, false, [], [], 9, 5⟩
        true true).2.2 = [.writeChangeUser 9]
    ∧ (reuse_connection ⟨.ROUTING, 0, false, 0, false, false, false, false, [], [], 9, 5⟩
        false true).2.1 = false := by
  refine ⟨by decide, ?_, ?_⟩
  · exact ((c1_reuse_connection _ true true (by decide)).2 (by decide)).1
  · exact (c1_reuse_connection _ false true (by decide)).1 (by decide)

lemma write_ignore_cases (c : Conn) (p : MPacket) (ok : Bool) :
    (write c p ok).1.ignore_replies = c.ignore_replies
    ∨ (p.ignorable = true ∧ (write c p ok).1.ignore_replies = c.ignore_replies + 1) := by
  unfold write
  by_cases h : 0 < c.ignore_replies
  · simp only [h, if_pos]
    unfold handle_persistent_connection
    split_ifs <;> simp
  · simp only [h, if_neg, not_false_iff]
    have hpre : ∀ q : MPacket, (prepare_for_write c q).ignore_replies = c.ignore_replies := by
      intro q
      unfold prepare_for_write track_query
      split_ifs <;> simp
    cases hs : c.state <;> simp only []
    all_goals
      first
        | simp
        | (unfold send_change_user_to_backend
           split_ifs <;> simp [hpre] <;> try assumption)

lemma read_ignored_reply_bounds (c : Conn) (ev : ReadEvent) (h : 0 ≤ c.ignore_replies) :
    0 ≤ (read_ignored_reply c ev).1.ignore_replies
    ∧ c.ignore_replies - 1 ≤ (read_ignored_reply c ev).1.ignore_replies
    ∧ (c.ignore_replies = 0 → (read_ignored_reply c ev).1.ignore_replies = 0) := by
  unfold read_ignored_reply
  by_cases hpos : 0 < c.ignore_replies
  · simp only [hpos, if_pos]
    split_ifs with h1 h2 h3
    · cases hq : c.stored_query with
      | nil => simp; omega
      | cons p q =>
        simp only []
        have hw := write_ignore_cases
          { c with stored_query := [], ignore_replies := c.ignore_replies - 1 } p
          ev.stored_write_ok
        rcases hw with hw | hw
        · simp only [hw]
          simp
          omega
        · rw [hw.2]
          simp
          omega
    · simp; omega
    · simp; omega
    · simp; omega
  · simp only [hpos, if_neg, not_false_iff]
    exact ⟨h, by omega, fun _ => by omega⟩

lemma normal_read_ignore (c : Conn) (ev : ReadEvent) (h : 0 ≤ c.ignore_replies) :
    0 ≤ (normal_read_model c ev).1.ignore_replies
    ∧ c.ignore_replies - 1 ≤ (normal_read_model c ev).1.ignore_replies
    ∧ (c.ignore_replies = 0 →
        (normal_read_model c ev).1.ignore_replies = 0) := by
  unfold normal_read_model
  by_cases hcu : c.changing_user = true ∧ ev.auth_switch = true ∧ ev.default_plugin = true
      ∧ ev.resp_write_ok = true
  · simp [hcu]
    omega
  · simp only [hcu, if_neg, not_false_iff]
    cases hch : c.changing_user with
    | false =>
      simp only [hch, Bool.false_eq_true, if_neg, not_false_iff]
      exact read_ignored_reply_bounds c ev h
    | true =>
      simp only [hch, if_pos]
      have := read_ignored_reply_bounds { c with changing_user := false } ev (by simpa using h)
      simpa using this

/-- C4: the ignore_replies counter is never negative at an observation
point; an operation moves it from 0 to a positive value only when it sends
a synthetic command whose reply must be swallowed (an ignorable-flagged
packet such as the ping, or the COM_CHANGE_USER of pool reuse); processing
a reply decrements it by at most one and never below 0; consequently every
state reached from a state with a non-negative counter keeps it
non-negative. -/
theorem c4_ignore_replies_invariant (c : Conn) (op : ConnOp) (ops : List ConnOp)
    (h : 0 ≤ c.ignore_replies) :
    0 ≤ (conn_step c op).ignore_replies
    ∧ (c.ignore_replies = 0 → 0 < (conn_step c op).ignore_replies → synthetic_send op)
    ∧ (∀ ev, op = .readOp ev →
        c.ignore_replies - 1 ≤ (conn_step c op).ignore_replies)
    ∧ 0 ≤ (conn_run c ops).ignore_replies := by
  have hstep : ∀ c' : Conn, ∀ o : ConnOp, 0 ≤ c'.ignore_replies →
      0 ≤ (conn_step c' o).ignore_replies := by
    intro c' o h'
    cases o with
    | writeOp p ok =>
      rcases write_ignore_cases c' p ok with hw | hw
      · simp [conn_step, hw, h']
      · simp [conn_step, hw.2]; omega
    | readOp ev => exact (normal_read_ignore c' ev h').1
    | reuseOp pol ok =>
      simp only [conn_step]
      unfold reuse_connection
      split_ifs <;> simp [h']
    | pingOp done ok =>
      simp only [conn_step]
      unfold ping
      split_ifs with hd
      · rcases write_ignore_cases c' ignorable_ping ok with hw | hw
        · simp [hw, h']
        · simp [hw.2]; omega
      · simpa using h'
  refine ⟨hstep c op h, ?_, ?_, ?_⟩
  · intro h0 hpos
    cases op with
    | writeOp p ok =>
      rcases write_ignore_cases c p ok with hw | hw
      · simp [conn_step, hw, h0] at hpos
      · exact hw.1
    | readOp ev =>
      have := (normal_read_ignore c ev h).2.2 h0
      simp [conn_step] at hpos
      omega
    | reuseOp pol ok => trivial
    | pingOp done ok => trivial
  · intro ev hev
    subst hev
    exact (normal_read_ignore c ev h).2.1
  · induction ops generalizing c with
    | nil => simpa [conn_run]
    | cons o os ih =>
      have := hstep c o h
      simpa [conn_run] using ih (conn_step c o) this

/-- Witness for c4_ignore_replies_invariant: an ignorable ping moves the
counter from 0 to 1 and a subsequent reply brings it back to 0. -/
theorem c4_ignore_replies_invariant_witness :
    0 ≤ (conn_step ⟨.ROUTING, 0, false, 3, false, false, false, false, [], [], 1, 0⟩
      (.writeOp ignorable_ping true)).ignore_replies
    ∧ synthetic_send (ConnOp.writeOp ignorable_ping true)
    ∧ 0 ≤ (conn_run ⟨.ROUTING, 0, false, 3, false, false, false, false, [], [], 1, 0⟩
      [.writeOp ignorable_ping true,
       .readOp ⟨false, false, false, 0, true⟩]).ignore_replies := by
  have h := c4_ignore_replies_invariant
    ⟨.ROUTING, 0, false, 3, false, false, false, false, [], [], 1, 0⟩
    (.writeOp ignorable_ping true)
    [.writeOp ignorable_ping true, .readOp ⟨false, false, false, 0, true⟩]
    (by decide)
  exact ⟨h.1, h.2.1 rfl (by decide), h.2.2.2⟩

/-- C10 counterexample: with the backend in Routing state, ignore_replies
at 0 and pooling enabled on the server, a COM_QUIT written while a
COM_CHANGE_USER is the tracked command (a user change is in progress) is
not discarded silently: write sends a rebuilt COM_CHANGE_USER packet to
the backend. -/
theorem c10_quit_counterexample :
    (⟨.ROUTING, 0, true, MXS_COM_CHANGE_USER, false, false, false, false, [], [], 7, 10⟩
        : Conn).state = .ROUTING
    ∧ (⟨.ROUTING, 0, true, MXS_COM_CHANGE_USER, false, false, false, false, [], [], 7, 10⟩
        : Conn).ignore_replies = 0
    ∧ 0 < (⟨.ROUTING, 0, true, MXS_COM_CHANGE_USER, false, false, false, false, [], [], 7, 10⟩
        : Conn).persist_pool_max
    ∧ (write
        ⟨.ROUTING, 0, true, MXS_COM_CHANGE_USER, false, false, false, false, [], [], 7, 10⟩
        ⟨MXS_COM_QUIT, 1, false, false, false⟩ true).2.2 = [.writeChangeUser 7] := by
  refine ⟨rfl, rfl, by decide, by decide⟩

/-- C10 (amended): when the backend protocol is in Routing state with
ignore_replies = 0, pooling enabled (pool_max > 0) and no COM_CHANGE_USER
being tracked after command tracking, a COM_QUIT written by the session is
silently discarded (nothing is sent, write reports success); the same
holds for a COM_QUIT at the head of the flushed delayed queue; without
pooling the COM_QUIT is forwarded. -/
theorem c10_quit_discarded (c : Conn) (p : MPacket) (ok : Bool)
    (hs : c.state = .ROUTING) (hi : c.ignore_replies = 0)
    (hp : 0 < c.persist_pool_max) (hq : p.cmd = MXS_COM_QUIT)
    (hnc : (prepare_for_write c p).reply_command ≠ MXS_COM_CHANGE_USER) :
    (write c p ok).2.1 = 1 ∧ (write c p ok).2.2 = []
    ∧ (backend_write_delayqueue c p ok).2.1 = true
    ∧ (backend_write_delayqueue c p ok).2.2 = []
    ∧ (∀ c2 : Conn, c2.state = .ROUTING → c2.ignore_replies = 0 →
        c2.persist_pool_max = 0 → p.ignorable = false →
        (prepare_for_write c2 p).reply_command ≠ MXS_COM_CHANGE_USER →
        (write c2 p true).2.2 = [.writePacket p]) := by
  have hq11 : ¬ (p.cmd = MXS_COM_CHANGE_USER) := by
    rw [hq]; decide
  have hpool : ∀ c' : Conn, (prepare_for_write c' p).persist_pool_max = c'.persist_pool_max := by
    intro c'
    unfold prepare_for_write track_query
    split_ifs <;> simp
  have hw : write c p ok = (prepare_for_write c p, 1, []) := by
    unfold write
    rw [hi]
    simp only [hs]
    simp [hnc, hq, hp, hpool]
  refine ⟨by rw [hw], by rw [hw], ?_, ?_, ?_⟩
  · unfold backend_write_delayqueue
    simp [hq11, hq, hp, MXS_COM_QUIT, MXS_COM_CHANGE_USER]
  · unfold backend_write_delayqueue
    simp [hq11, hq, hp, MXS_COM_QUIT, MXS_COM_CHANGE_USER]
  · intro c2 h2s h2i h2p hpig h2nc
    unfold write
    rw [h2i]
    simp only [h2s]
    simp [h2nc, hq, hpig, hpool, h2p]

/-- Witness for c10_quit_discarded on a plain routing connection. -/
theorem c10_quit_discarded_witness :
    (write ⟨.ROUTING, 0, false, 3, false, false, false, false, [], [], 7, 10⟩
      ⟨MXS_COM_QUIT, 1, false, false, false⟩ true).2.1 = 1
    ∧ (write ⟨.ROUTING, 0, false, 3, false, false, false, false, [], [], 7, 10⟩
      ⟨MXS_COM_QUIT, 1, false, false, false⟩ true).2.2 = [] := by
  have h := c10_quit_discarded
    ⟨.ROUTING, 0, false, 3, false, false, false, false, [], [], 7, 10⟩
    ⟨MXS_COM_QUIT, 1, false, false, false⟩ true rfl rfl (by decide) rfl (by decide)
  exact ⟨h.1, h.2.1⟩

/-- C2: a backend connection offered on the session destruction path is
parked in the pool (can_be_destroyed returns false) only if
persistpoolmax is positive, the server is running, the DCB is polling,
the protocol reports established, the session was valid for pooling, the
DCB has not hung up, and the count of live entries left by the expiry
sweep is strictly below persistpoolmax; when any of these fails the
connection is not pooled. -/
theorem c2_can_be_destroyed_conditions (st : WorkerState) (srv : ServerInfo) (d : Nat)
    (pol est sv hang : Bool) (now : Int) (polling : Nat → Bool)
    (h : (can_be_destroyed st srv d pol est sv hang now polling).2.1 = false) :
    0 < srv.persistpoolmax ∧ srv.running = true ∧ pol = true ∧ est = true ∧ sv = true
    ∧ hang = false ∧ st.evicting = false
    ∧ (evict_dcbs st srv .EXPIRED now polling).2.1 < srv.persistpoolmax
    ∧ (can_be_destroyed st srv d pol est sv hang now polling).1.entries
        = (evict_dcbs st srv .EXPIRED now polling).1.entries
            ++ [{ dcb := d, created := now, hanged_up := false }] := by
  unfold can_be_destroyed at h ⊢
  by_cases h1 : st.evicting = true
  · simp [h1] at h
  · by_cases h2 : pol = true ∧ est = true ∧ sv = true ∧ 0 < srv.persistpoolmax
        ∧ srv.running = true ∧ hang = false
    · by_cases h3 : (evict_dcbs st srv .EXPIRED now polling).2.1 < srv.persistpoolmax
      · by_cases h4 : (evict_dcbs st srv .EXPIRED now polling).1.n_persistent
            < (srv.persistpoolmax : Int)
        · refine ⟨h2.2.2.2.1, h2.2.2.2.2.1, h2.1, h2.2.1, h2.2.2.1, h2.2.2.2.2.2,
            by simpa using h1, h3, ?_⟩
          simp [h1, h2, h3, h4]
        · simp [h1, h2, h3, h4] at h
      · simp [h1, h2, h3] at h
    · simp [h1, h2] at h

/-- Witness for c2_can_be_destroyed_conditions: a worker with one free
slot pools an established polling connection. -/
theorem c2_can_be_destroyed_conditions_witness :
    (can_be_destroyed ⟨[5], [], false, 0⟩ ⟨true, 2, 100⟩ 5 true true true false 50
        (fun _ => true)).2.1 = false
    ∧ (evict_dcbs ⟨[5], [], false, 0⟩ ⟨true, 2, 100⟩ .EXPIRED 50 (fun _ => true)).2.1
        < (⟨true, 2, 100⟩ : ServerInfo).persistpoolmax := by
  refine ⟨by decide, ?_⟩
  exact (c2_can_be_destroyed_conditions ⟨[5], [], false, 0⟩ ⟨true, 2, 100⟩ 5
    true true true false 50 (fun _ => true) (by decide)).2.2.2.2.2.2.2.1

lemma evict_walk_perm (now : Int) (srv : ServerInfo) (kind : EvictKind) :
    ∀ (l : List PoolEntry) (count : Nat),
      ((evict_walk now srv kind l count).1.map PoolEntry.dcb
        ++ (evict_walk now srv kind l count).2.1).Perm (l.map PoolEntry.dcb) := by
  intro l
  induction l with
  | nil => intro count; simp [evict_walk]
  | cons e rest ih =>
    intro count
    unfold evict_walk
    split_ifs with hc
    · simp only [List.map_cons]
      refine List.Perm.trans ?_ ((ih count).cons e.dcb)
      exact List.perm_middle
    · simp only [List.map_cons, List.cons_append]
      exact (ih (count + 1)).cons e.dcb

lemma fold_close_state (polling : Nat → Bool) (ev : List Nat) :
    ∀ (st : WorkerState) (acc : List PAction),
      (ev.foldl (fun (a : WorkerState × List PAction) d =>
          let cr := close_pooled_dcb a.1 d (polling d)
          (cr.1, a.2 ++ cr.2)) (st, acc)).1
        = { st with dcbs := st.dcbs ++ ev } := by
  induction ev with
  | nil => intro st acc; simp
  | cons d ev ih =>
    intro st acc
    simp only [List.foldl_cons]
    rw [ih]
    simp [close_pooled_dcb, List.append_assoc]

lemma evict_dcbs_char (st : WorkerState) (srv : ServerInfo) (kind : EvictKind) (now : Int)
    (polling : Nat → Bool) :
    (evict_dcbs st srv kind now polling).1.dcbs
        = st.dcbs ++ (evict_walk now srv (if ¬ srv.running = true then .ALL else kind)
            st.entries 0).2.1
    ∧ (evict_dcbs st srv kind now polling).1.entries
        = (evict_walk now srv (if ¬ srv.running = true then .ALL else kind) st.entries 0).1
    ∧ (evict_dcbs st srv kind now polling).1.evicting = st.evicting := by
  unfold evict_dcbs
  rw [fold_close_state]
  simp

lemma evict_dcbs_winv (st : WorkerState) (srv : ServerInfo) (kind : EvictKind) (now : Int)
    (polling : Nat → Bool) (h : WInv st) : WInv (evict_dcbs st srv kind now polling).1 := by
  obtain ⟨hdcbs, hentries, hdisj⟩ := h
  obtain ⟨hd, he, _⟩ := evict_dcbs_char st srv kind now polling
  set kind' := if ¬ srv.running = true then EvictKind.ALL else kind with hk
  have hperm := evict_walk_perm now srv kind' st.entries 0
  have hnd : ((evict_walk now srv kind' st.entries 0).1.map PoolEntry.dcb
      ++ (evict_walk now srv kind' st.entries 0).2.1).Nodup := hperm.nodup_iff.mpr hentries
  rw [List.nodup_append] at hnd
  obtain ⟨hkept, hev, hkeptev⟩ := hnd
  have hmem : ∀ x, x ∈ (evict_walk now srv kind' st.entries 0).1.map PoolEntry.dcb
      ∨ x ∈ (evict_walk now srv kind' st.entries 0).2.1 → x ∈ st.entries.map PoolEntry.dcb := by
    intro x hx
    exact hperm.mem_iff.mp (List.mem_append.mpr hx)
  refine ⟨?_, ?_, ?_⟩
  · rw [hd, List.nodup_append]
    refine ⟨hdcbs, hev, ?_⟩
    intro x hx hx2
    exact hdisj x hx (hmem x (Or.inr hx2))
  · rw [he]
    exact hkept
  · intro x hx
    rw [hd] at hx
    rw [he]
    rcases List.mem_append.mp hx with hx1 | hx2
    · intro hc
      exact hdisj x hx1 (hmem x (Or.inl hc))
    · intro hc
      exact hkeptev hc hx2

lemma pool_take_winv (n : Nat) : ∀ (st : WorkerState) (reuse_ok polling : Nat → Bool),
    st.entries.length ≤ n → WInv st → WInv (pool_take_loop st reuse_ok polling).1 := by
  induction n with
  | zero =>
    intro st r p hlen hinv
    rw [pool_take_loop]
    have he : st.entries = [] := List.length_eq_zero.mp (Nat.le_zero.mp hlen)
    split
    · exact hinv
    · rename_i e rest heq
      rw [he] at heq
      cases heq
  | succ n ih =>
    intro st r p hlen hinv
    obtain ⟨hdcbs, hentries, hdisj⟩ := hinv
    rw [pool_take_loop]
    split
    · exact ⟨hdcbs, hentries, hdisj⟩
    · rename_i e rest heq
      rw [heq, List.map_cons] at hentries
      have hetail : (rest.map PoolEntry.dcb).Nodup := hentries.of_cons
      have heheade : e.dcb ∉ rest.map PoolEntry.dcb := by
        have := List.nodup_cons.mp hentries
        exact this.1
      have hdisj1 : ∀ x ∈ st.dcbs, x ∉ rest.map PoolEntry.dcb := by
        intro x hx hc
        exact hdisj x hx (by rw [heq, List.map_cons]; exact List.mem_cons_of_mem _ hc)
      by_cases hr : r e.dcb = true
      · rw [if_pos hr]
        refine ⟨?_, hetail, ?_⟩
        · show (st.dcbs ++ [e.dcb]).Nodup
          rw [List.nodup_append]
          refine ⟨hdcbs, List.nodup_singleton _, ?_⟩
          intro x hx hx2
          rw [List.mem_singleton] at hx2
          subst hx2
          exact hdisj _ hx (by rw [heq, List.map_cons]; exact List.mem_cons_self _ _)
        · show ∀ x ∈ st.dcbs ++ [e.dcb], x ∉ rest.map PoolEntry.dcb
          intro x hx
          rcases List.mem_append.mp hx with hx1 | hx2
          · exact hdisj1 x hx1
          · rw [List.mem_singleton] at hx2
            subst hx2
            exact heheade
      · rw [if_neg hr]
        refine ih { st with entries := rest, n_persistent := st.n_persistent - 1 } r p ?_
          ⟨hdcbs, hetail, hdisj1⟩
        show rest.length ≤ n
        have : st.entries.length = rest.length + 1 := by rw [heq]; simp
        omega

/-- Preconditions of the pool operations, mirroring the source's
assertions: a DCB being destroyed is not pooled, and evict_dcb is called
for a DCB that is pooled. -/
def wop_pre (st : WorkerState) : WOp → Prop
  | .destroyOp _ d _ _ _ _ _ _ => d ∉ st.entries.map PoolEntry.dcb
  | .evictOneOp d _ => d ∈ st.entries.map PoolEntry.dcb
  | _ => True

lemma can_be_destroyed_winv (st : WorkerState) (srv : ServerInfo) (d : Nat)
    (pol est sv hang : Bool) (now : Int) (polling : Nat → Bool)
    (hinv : WInv st) (hd : d ∉ st.entries.map PoolEntry.dcb) :
    WInv (can_be_destroyed st srv d pol est sv hang now polling).1 := by
  unfold can_be_destroyed
  by_cases h1 : st.evicting = true
  · simpa [h1] using hinv
  · by_cases h2 : pol = true ∧ est = true ∧ sv = true ∧ 0 < srv.persistpoolmax
        ∧ srv.running = true ∧ hang = false
    · by_cases h3 : (evict_dcbs st srv .EXPIRED now polling).2.1 < srv.persistpoolmax
      · by_cases h4 : (evict_dcbs st srv .EXPIRED now polling).1.n_persistent
            < (srv.persistpoolmax : Int)
        · simp only [h1, h2, h3, h4, if_true, if_false, Bool.false_eq_true,
            not_false_iff, and_self, if_pos, if_neg]
          -- pooled: entries gains d, dcbs loses d
          have hw := evict_dcbs_winv st srv .EXPIRED now polling hinv
          obtain ⟨hdcbs, hentries, hdisj⟩ := hw
          obtain ⟨hdc, hec, _⟩ := evict_dcbs_char st srv .EXPIRED now polling
          have hkeptsub :
              ∀ x ∈ (evict_dcbs st srv .EXPIRED now polling).1.entries.map PoolEntry.dcb,
                x ∈ st.entries.map PoolEntry.dcb := by
            intro x hx
            rw [hec] at hx
            have hperm := evict_walk_perm now srv
              (if ¬ srv.running = true then EvictKind.ALL else .EXPIRED) st.entries 0
            exact hperm.mem_iff.mp (List.mem_append.mpr (Or.inl hx))
          refine ⟨?_, ?_, ?_⟩
          · show ((evict_dcbs st srv .EXPIRED now polling).1.dcbs.erase d).Nodup
            exact hdcbs.erase d
          · show (((evict_dcbs st srv .EXPIRED now polling).1.entries
                ++ ([{ dcb := d, created := now, hanged_up := false }] : List PoolEntry)).map
                  PoolEntry.dcb).Nodup
            rw [List.map_append, List.nodup_append]
            refine ⟨hentries, by simp, ?_⟩
            intro x hx hx2
            simp at hx2
            subst hx2
            exact hd (hkeptsub x hx)
          · show ∀ x ∈ (evict_dcbs st srv .EXPIRED now polling).1.dcbs.erase d,
              x ∉ ((evict_dcbs st srv .EXPIRED now polling).1.entries
                ++ ([{ dcb := d, created := now, hanged_up := false }] : List PoolEntry)).map
                  PoolEntry.dcb
            intro x hx
            have hx' : x ≠ d ∧ x ∈ (evict_dcbs st srv .EXPIRED now polling).1.dcbs :=
              (List.Nodup.mem_erase_iff hdcbs).mp hx
            rw [List.map_append]
            intro hc
            rcases List.mem_append.mp hc with hc1 | hc2
            · exact hdisj x hx'.2 hc1
            · simp at hc2
              exact hx'.1 hc2
        · simpa [h1, h2, h3, h4] using evict_dcbs_winv st srv .EXPIRED now polling hinv
      · simpa [h1, h2, h3] using evict_dcbs_winv st srv .EXPIRED now polling hinv
    · simpa [h1, h2] using hinv

lemma evict_dcb_winv (st : WorkerState) (d : Nat) (polling : Nat → Bool)
    (hinv : WInv st) (hd : d ∈ st.entries.map PoolEntry.dcb) :
    WInv (evict_dcb st d polling).1 := by
  obtain ⟨hdcbs, hentries, hdisj⟩ := hinv
  have hdnot : d ∉ st.dcbs := by
    intro hc
    exact hdisj d hc hd
  have hfsub : ∀ x ∈ (st.entries.filter (fun e => e.dcb ≠ d)).map PoolEntry.dcb,
      x ∈ st.entries.map PoolEntry.dcb := by
    intro x hx
    rw [List.mem_map] at hx ⊢
    obtain ⟨e, he, hex⟩ := hx
    exact ⟨e, List.mem_of_mem_filter he, hex⟩
  refine ⟨?_, ?_, ?_⟩
  · simp only [evict_dcb, close_pooled_dcb]
    rw [List.nodup_append]
    refine ⟨hdcbs, by simp, ?_⟩
    intro x hx hx2
    simp at hx2
    subst hx2
    exact hdnot hx
  · simp only [evict_dcb, close_pooled_dcb]
    exact hentries.sublist ((List.filter_sublist _).map PoolEntry.dcb)
  · intro x hx
    simp only [evict_dcb, close_pooled_dcb] at hx ⊢
    intro hc
    obtain ⟨e, he, hex⟩ := List.mem_map.mp hc
    have hed : e.dcb ≠ d := by
      have := List.of_mem_filter he
      simpa using this
    rcases List.mem_append.mp hx with hx1 | hx2
    · exact hdisj x hx1 (hfsub x hc)
    · simp at hx2
      rw [hx2] at hex
      exact hed hex

lemma worker_step_winv (st : WorkerState) (op : WOp) (hinv : WInv st)
    (hpre : wop_pre st op) : WInv (worker_step st op) := by
  cases op with
  | destroyOp srv d pol est sv hang now p =>
    exact can_be_destroyed_winv st srv d pol est sv hang now p hinv hpre
  | evictOp srv kind now p => exact evict_dcbs_winv st srv kind now p hinv
  | evictOneOp d p => exact evict_dcb_winv st d p hinv hpre
  | takeOp srv now r p =>
    simp only [worker_step, get_backend_dcb_from_pool]
    exact pool_take_winv (evict_dcbs st srv .EXPIRED now p).1.entries.length _ r p
      (le_refl _) (evict_dcbs_winv st srv .EXPIRED now p hinv)

/-- C7: the worker's active-DCB registry and its pool are disjoint at
every point: the disjointness invariant WInv is preserved by every pool
operation (parking removes the DCB from the active set), and
close_pooled_dcb puts the DCB back into the active set first, before the
shutdown and close of the eviction path. -/
theorem c7_pool_active_disjoint (st : WorkerState) (op : WOp)
    (hinv : WInv st) (hpre : wop_pre st op) :
    WInv (worker_step st op)
    ∧ (∀ st' d pol, (close_pooled_dcb st' d pol).1.dcbs = st'.dcbs ++ [d]
        ∧ (close_pooled_dcb st' d pol).2.head? = some (.addActive d)
        ∧ (close_pooled_dcb st' d pol).2.getLast? = some (.closeDcb d)) := by
  refine ⟨worker_step_winv st op hinv hpre, ?_⟩
  intro st' d pol
  refine ⟨rfl, rfl, ?_⟩
  cases pol <;> simp [close_pooled_dcb]

/-- Witness for c7_pool_active_disjoint: parking DCB 5 keeps pool and
active set disjoint. -/
theorem c7_pool_active_disjoint_witness :
    WInv (worker_step ⟨[5], [], false, 0⟩
      (.destroyOp ⟨true, 2, 100⟩ 5 true true true false 50 (fun _ => true))) := by
  exact (c7_pool_active_disjoint ⟨[5], [], false, 0⟩
    (.destroyOp ⟨true, 2, 100⟩ 5 true true true false 50 (fun _ => true))
    (by constructor <;> simp) (by simp [wop_pre])).1

lemma mk_packet_len_eq (l : Nat) (h : l < 2 ^ 24) :
    l % 256 + l / 256 % 256 * 256 + l / 65536 % 256 * 65536 = l := by
  omega

lemma process_packets_step (st : TrackState) (seq : Nat) (p q : List Nat)
    (hlen : p.length < 2 ^ 24) :
    process_packets st (mk_packet seq p ++ q)
      = ((process_packets (pp_step st p p.length) q).1,
         MYSQL_HEADER_LEN + p.length + (process_packets (pp_step st p p.length) q).2.1,
         (if st.skip_next then 0 else 1) + (process_packets (pp_step st p p.length) q).2.2) := by
  show process_packets st
      (p.length % 256 :: p.length / 256 % 256 :: p.length / 65536 % 256 :: seq :: (p ++ q)) = _
  rw [process_packets]
  have hl := mk_packet_len_eq p.length hlen
  rw [hl]
  have hnl : ¬ (p ++ q).length < p.length := by
    rw [List.length_append]; omega
  rw [if_neg hnl, List.take_left, List.drop_left]

lemma process_packets_nil (st : TrackState) : process_packets st [] = (st, 0, 0) := by
  rw [process_packets]
  intro b0 b1 b2 s rest h
  simp at h

lemma process_one_packet_row (st : TrackState) (p : List Nat) (len : Nat)
    (hst : st.reply.state = .RSET_ROWS) (hlen : len ≠ MYSQL_EOF_PACKET_LEN - MYSQL_HEADER_LEN)
    (hcmd : p.headD 0 ≠ MYSQL_REPLY_ERR) :
    process_one_packet st p len
      = { st with reply := { st.reply with rows := st.reply.rows + 1 } } := by
  have h1 : ¬ (p.headD 0 = MYSQL_REPLY_EOF ∧ len = MYSQL_EOF_PACKET_LEN - MYSQL_HEADER_LEN) := by
    intro hc
    exact hlen hc.2
  unfold process_one_packet
  split <;> rename_i hs <;> rw [hst] at hs
  · cases hs
  · cases hs
  · cases hs
  · cases hs
  · rw [if_neg h1, if_neg hcmd]
  · cases hs

/-- C5: a packet whose payload length is 2^24 - 1 arms skip_next; the next
complete packet is not fed to process_one_packet (the control-flow counter
increases by exactly 1 over the two packets) and skip_next is re-armed iff
that continuation is itself max-sized; consequently a row payload of
2^24 - 1 bytes followed by one short continuation advances the reply
machine exactly once, adding exactly one row. -/
theorem c5_large_packet_skip (st : TrackState) (s1 s2 : Nat) (p1 p2 : List Nat)
    (hskip : st.skip_next = false)
    (hlen1 : p1.length = GW_MYSQL_MAX_PACKET_LEN)
    (hrows : st.reply.state = .RSET_ROWS)
    (hcmd : p1.headD 0 ≠ MYSQL_REPLY_ERR)
    (hlen2 : p2.length < 2 ^ 24) :
    (process_packets st (mk_packet s1 p1 ++ mk_packet s2 p2)).2.2 = 1
    ∧ (process_packets st (mk_packet s1 p1 ++ mk_packet s2 p2)).1.reply.rows
        = st.reply.rows + 1
    ∧ (process_packets st (mk_packet s1 p1 ++ mk_packet s2 p2)).1.reply.state = .RSET_ROWS
    ∧ (process_packets st (mk_packet s1 p1 ++ mk_packet s2 p2)).1.skip_next
        = decide (p2.length = GW_MYSQL_MAX_PACKET_LEN)
    ∧ (process_packets st (mk_packet s1 p1 ++ mk_packet s2 p2)).2.1
        = (MYSQL_HEADER_LEN + p1.length) + (MYSQL_HEADER_LEN + p2.length) := by
  have h24 : p1.length < 2 ^ 24 := by
    rw [hlen1]; decide
  have hsk1 : decide (p1.length = GW_MYSQL_MAX_PACKET_LEN) = true := by
    rw [hlen1]; decide
  have hone := process_one_packet_row
    { st with skip_next := decide (p1.length = GW_MYSQL_MAX_PACKET_LEN) } p1 p1.length
    (by simpa using hrows) (by rw [hlen1]; decide) hcmd
  have hst1 : pp_step st p1 p1.length
      = { st with skip_next := decide (p1.length = GW_MYSQL_MAX_PACKET_LEN)
                  reply := { st.reply with rows := st.reply.rows + 1 } } := by
    unfold pp_step
    rw [hskip]
    simp only [Bool.false_eq_true, if_neg, not_false_iff]
    rw [hone]
  have hst2 : pp_step
      { st with skip_next := decide (p1.length = GW_MYSQL_MAX_PACKET_LEN)
                reply := { st.reply with rows := st.reply.rows + 1 } } p2 p2.length
      = { st with skip_next := decide (p2.length = GW_MYSQL_MAX_PACKET_LEN)
                  reply := { st.reply with rows := st.reply.rows + 1 } } := by
    unfold pp_step
    simp only [hsk1, if_pos]
  have hstep1 := process_packets_step st s1 p1 (mk_packet s2 p2) h24
  have hstep2 := process_packets_step
    { st with skip_next := decide (p1.length = GW_MYSQL_MAX_PACKET_LEN)
              reply := { st.reply with rows := st.reply.rows + 1 } } s2 p2 [] hlen2
  rw [List.append_nil] at hstep2
  rw [hst2] at hstep2
  rw [hstep1, hst1, hstep2, hskip, hsk1, process_packets_nil]
  refine ⟨rfl, rfl, by simpa using hrows, rfl, ?_⟩
  simp only [MYSQL_HEADER_LEN]
  omega

/-- Witness for c5_large_packet_skip: a maximum-size row packet followed by
an empty continuation. -/
theorem c5_large_packet_skip_witness :
    (process_packets
      ⟨⟨.RSET_ROWS, 3, 0, 0, 0, 0, 0, false, none, [], [], []⟩, 0, 0, false, false,
        false, false, false⟩
      (mk_packet 1 (7 :: List.replicate (2 ^ 24 - 2) 0) ++ mk_packet 2 [])).2.2 = 1
    ∧ (process_packets
      ⟨⟨.RSET_ROWS, 3, 0, 0, 0, 0, 0, false, none, [], [], []⟩, 0, 0, false, false,
        false, false, false⟩
      (mk_packet 1 (7 :: List.replicate (2 ^ 24 - 2) 0) ++ mk_packet 2 [])).1.reply.rows = 1 := by
  have h := c5_large_packet_skip
    ⟨⟨.RSET_ROWS, 3, 0, 0, 0, 0, 0, false, none, [], [], []⟩, 0, 0, false, false,
      false, false, false⟩
    1 2 (7 :: List.replicate (2 ^ 24 - 2) 0) []
    rfl (by rw [List.length_cons, List.length_replicate]; decide) rfl
    (by rw [List.headD_cons]; decide) (by decide)
  exact ⟨h.1, h.2.1⟩

lemma process_one_packet_prepare (st : TrackState) (p : List Nat) (len : Nat)
    (hst : st.reply.state = .PREPARE) :
    process_one_packet st p len
      = (if st.ps_packets - 1 = 0
         then set_reply_state { st with ps_packets := st.ps_packets - 1 } .DONE
         else { st with ps_packets := st.ps_packets - 1 }) := by
  unfold process_one_packet
  split <;> rename_i hs <;> rw [hst] at hs
  all_goals cases hs

lemma process_list_prepare_lt (ps : List (List Nat)) :
    ∀ st : TrackState, st.reply.state = .PREPARE → ps.length < st.ps_packets →
      (process_list st ps).reply.state = .PREPARE
      ∧ (process_list st ps).ps_packets = st.ps_packets - ps.length := by
  induction ps with
  | nil =>
    intro st hst hlt
    exact ⟨hst, by simp [process_list]⟩
  | cons p ps ih =>
    intro st hst hlt
    have hne : ¬ st.ps_packets - 1 = 0 := by
      simp at hlt
      omega
    have hstep := process_one_packet_prepare st p p.length hst
    rw [if_neg hne] at hstep
    show (process_list (process_one_packet st p p.length) ps).reply.state = .PREPARE
      ∧ (process_list (process_one_packet st p p.length) ps).ps_packets
          = st.ps_packets - (p :: ps).length
    rw [hstep]
    have := ih { st with ps_packets := st.ps_packets - 1 } hst (by simp at hlt ⊢; omega)
    refine ⟨this.1, ?_⟩
    rw [this.2]
    simp only [List.length_cons]
    omega

lemma process_list_prepare_done (ps : List (List Nat)) :
    ∀ st : TrackState, st.reply.state = .PREPARE → 0 < st.ps_packets →
      ps.length = st.ps_packets → (process_list st ps).reply.state = .DONE := by
  induction ps with
  | nil =>
    intro st hst hpos hlen
    simp at hlen
    omega
  | cons p ps ih =>
    intro st hst hpos hlen
    have hstep := process_one_packet_prepare st p p.length hst
    show (process_list (process_one_packet st p p.length) ps).reply.state = .DONE
    by_cases hz : st.ps_packets - 1 = 0
    · rw [if_pos hz] at hstep
      rw [hstep]
      have hpsnil : ps = [] := by
        simp at hlen
        have : ps.length = 0 := by omega
        exact List.length_eq_zero.mp this
      subst hpsnil
      simp [process_list, set_reply_state]
    · rw [if_neg hz] at hstep
      rw [hstep]
      refine ih { st with ps_packets := st.ps_packets - 1 } hst
        (by show 0 < st.ps_packets - 1; omega) ?_
      show ps.length = st.ps_packets - 1
      simp at hlen
      omega

/-- C6: processing the OK packet of a COM_STMT_PREPARE response records
generated_id = stmt_id and param_count = n_params and enters the PREPARE
reply-state expecting n_cols + n_params + (1 EOF if n_cols > 0) + (1 EOF if
n_params > 0) further packets; the reply-state becomes DONE exactly after
that many further packets (immediately when the count is 0). -/
theorem c6_prepare_response (st : TrackState) (i0 i1 i2 i3 c0 c1 p0 p1 : Nat)
    (tl : List Nat)
    (hst : st.reply.state = .START) (hcmd : st.reply.command = MXS_COM_STMT_PREPARE) :
    (process_one_packet st (0 :: i0 :: i1 :: i2 :: i3 :: c0 :: c1 :: p0 :: p1 :: tl)
        (0 :: i0 :: i1 :: i2 :: i3 :: c0 :: c1 :: p0 :: p1 :: tl).length).reply.generated_id
      = i0 + i1 * 256 + i2 * 65536 + i3 * 16777216
    ∧ (process_one_packet st (0 :: i0 :: i1 :: i2 :: i3 :: c0 :: c1 :: p0 :: p1 :: tl)
        (0 :: i0 :: i1 :: i2 :: i3 :: c0 :: c1 :: p0 :: p1 :: tl).length).reply.param_count
      = p0 + p1 * 256
    ∧ ((c0 + c1 * 256) + (p0 + p1 * 256)
          + (if 0 < c0 + c1 * 256 then 1 else 0) + (if 0 < p0 + p1 * 256 then 1 else 0) = 0 →
        (process_one_packet st (0 :: i0 :: i1 :: i2 :: i3 :: c0 :: c1 :: p0 :: p1 :: tl)
          (0 :: i0 :: i1 :: i2 :: i3 :: c0 :: c1 :: p0 :: p1 :: tl).length).reply.state = .DONE)
    ∧ (0 < (c0 + c1 * 256) + (p0 + p1 * 256)
          + (if 0 < c0 + c1 * 256 then 1 else 0) + (if 0 < p0 + p1 * 256 then 1 else 0) →
        (process_one_packet st (0 :: i0 :: i1 :: i2 :: i3 :: c0 :: c1 :: p0 :: p1 :: tl)
          (0 :: i0 :: i1 :: i2 :: i3 :: c0 :: c1 :: p0 :: p1 :: tl).length).reply.state = .PREPARE
        ∧ (process_one_packet st (0 :: i0 :: i1 :: i2 :: i3 :: c0 :: c1 :: p0 :: p1 :: tl)
            (0 :: i0 :: i1 :: i2 :: i3 :: c0 :: c1 :: p0 :: p1 :: tl).length).ps_packets
          = (c0 + c1 * 256) + (p0 + p1 * 256)
            + (if 0 < c0 + c1 * 256 then 1 else 0) + (if 0 < p0 + p1 * 256 then 1 else 0))
    ∧ (∀ ps : List (List Nat),
        ps.length = (c0 + c1 * 256) + (p0 + p1 * 256)
            + (if 0 < c0 + c1 * 256 then 1 else 0) + (if 0 < p0 + p1 * 256 then 1 else 0) →
        (process_list (process_one_packet st
            (0 :: i0 :: i1 :: i2 :: i3 :: c0 :: c1 :: p0 :: p1 :: tl)
            (0 :: i0 :: i1 :: i2 :: i3 :: c0 :: c1 :: p0 :: p1 :: tl).length) ps).reply.state
          = .DONE)
    ∧ (∀ ps : List (List Nat),
        ps.length < (c0 + c1 * 256) + (p0 + p1 * 256)
            + (if 0 < c0 + c1 * 256 then 1 else 0) + (if 0 < p0 + p1 * 256 then 1 else 0) →
        (process_list (process_one_packet st
            (0 :: i0 :: i1 :: i2 :: i3 :: c0 :: c1 :: p0 :: p1 :: tl)
            (0 :: i0 :: i1 :: i2 :: i3 :: c0 :: c1 :: p0 :: p1 :: tl).length) ps).reply.state
          = .PREPARE) := by
  have hdispatch : process_one_packet st
      (0 :: i0 :: i1 :: i2 :: i3 :: c0 :: c1 :: p0 :: p1 :: tl)
      (0 :: i0 :: i1 :: i2 :: i3 :: c0 :: c1 :: p0 :: p1 :: tl).length
      = process_ps_response { st with reply := { st.reply with is_ok := true } }
          (0 :: i0 :: i1 :: i2 :: i3 :: c0 :: c1 :: p0 :: p1 :: tl) := by
    unfold process_one_packet
    rw [hst]
    unfold process_reply_start
    rw [hcmd]
    norm_num [MXS_COM_STMT_PREPARE, MXS_COM_BINLOG_DUMP, MXS_COM_STATISTICS, MXS_COM_FIELD_LIST]
    unfold process_result_start
    norm_num [MYSQL_REPLY_OK, hcmd, MXS_COM_STMT_PREPARE]
  have hps : process_ps_response { st with reply := { st.reply with is_ok := true } }
      (0 :: i0 :: i1 :: i2 :: i3 :: c0 :: c1 :: p0 :: p1 :: tl)
      = set_reply_state
          { st with
            reply := { st.reply with
                       is_ok := true,
                       generated_id := i0 + i1 * 256 + i2 * 65536 + i3 * 16777216,
                       param_count := p0 + p1 * 256 },
            ps_packets := (if c0 + c1 * 256 ≠ 0 then c0 + c1 * 256 + 1 else 0)
              + (if p0 + p1 * 256 ≠ 0 then p0 + p1 * 256 + 1 else 0) }
          (if (if c0 + c1 * 256 ≠ 0 then c0 + c1 * 256 + 1 else 0)
              + (if p0 + p1 * 256 ≠ 0 then p0 + p1 * 256 + 1 else 0) = 0
           then .DONE else .PREPARE) := by
    unfold process_ps_response
    simp [List.getD]
  have hsum : (if c0 + c1 * 256 ≠ 0 then c0 + c1 * 256 + 1 else 0)
      + (if p0 + p1 * 256 ≠ 0 then p0 + p1 * 256 + 1 else 0)
      = (c0 + c1 * 256) + (p0 + p1 * 256)
        + (if 0 < c0 + c1 * 256 then 1 else 0) + (if 0 < p0 + p1 * 256 then 1 else 0) := by
    split_ifs <;> omega
  rw [hdispatch, hps]
  set n := (c0 + c1 * 256) + (p0 + p1 * 256)
    + (if 0 < c0 + c1 * 256 then 1 else 0) + (if 0 < p0 + p1 * 256 then 1 else 0) with hn
  rw [hsum]
  refine ⟨rfl, rfl, ?_, ?_, ?_, ?_⟩
  · intro h0
    simp [set_reply_state, h0]
  · intro hpos
    have : ¬ n = 0 := by omega
    simp [set_reply_state, this]
  · intro ps hlen
    by_cases h0 : n = 0
    · rw [h0] at hlen
      have : ps = [] := List.length_eq_zero.mp hlen
      subst this
      simp [process_list, set_reply_state, h0]
    · refine process_list_prepare_done ps _ ?_ ?_ ?_
      · simp [set_reply_state, h0]
      · simp [set_reply_state]
        omega
      · simp [set_reply_state, hlen, h0]
  · intro ps hlen
    have h0 : ¬ n = 0 := by omega
    refine (process_list_prepare_lt ps _ ?_ ?_).1
    · simp [set_reply_state, h0]
    · simp [set_reply_state]
      omega

lemma lor_land_distrib (a p c : Nat) : (a ||| p) &&& c = (a &&& c) ||| (p &&& c) := by
  apply Nat.eq_of_testBit_eq
  intro i
  simp only [Nat.testBit_land, Nat.testBit_lor]
  cases a.testBit i <;> cases p.testBit i <;> cases c.testBit i <;> rfl

lemma lor_zero_right (a : Nat) : a ||| 0 = a := by
  apply Nat.eq_of_testBit_eq
  intro i
  simp [Nat.testBit_lor]

/-- C8: the capability mask of the handshake response equals the client's
negotiated mask AND the fixed client-compatible bitset, OR'ed with SSL iff
TLS is requested, SESSION_TRACK iff the service requires session-state
tracking, MULTI_STATEMENTS always, CONNECT_WITH_DB iff an initial database
was chosen (cleared otherwise) and PLUGIN_AUTH always; the connect-attrs
blob is appended only when both the computed mask and the server's mask
contain CONNECT_ATTRS. -/
theorem c8_create_capabilities_spec (client_caps server_caps : Nat)
    (with_ssl session_track db_specified ssl_est attrs_nonempty : Bool) :
    create_capabilities client_caps with_ssl session_track db_specified
      = spec_capabilities client_caps with_ssl session_track db_specified
    ∧ ((gw_generate_auth_response client_caps server_caps with_ssl ssl_est session_track
          db_specified attrs_nonempty).2 = true →
        create_capabilities client_caps with_ssl session_track db_specified
          &&& server_caps &&& GW_MYSQL_CAPABILITIES_CONNECT_ATTRS ≠ 0) := by
  constructor
  · have hpc : GW_MYSQL_CAPABILITIES_PLUGIN_AUTH
        &&& (0xffffffff - GW_MYSQL_CAPABILITIES_CONNECT_WITH_DB)
        = GW_MYSQL_CAPABILITIES_PLUGIN_AUTH := by decide
    cases with_ssl <;> cases session_track <;> cases db_specified <;>
      simp only [create_capabilities, spec_capabilities, Bool.false_eq_true, if_true,
        if_false, ite_true, ite_false, lor_zero_right]
    all_goals (conv_rhs => rw [lor_land_distrib, hpc])
  · intro h
    unfold gw_generate_auth_response at h
    simp only [decide_eq_true_eq] at h
    exact h.2.1

/-- Witness for c8_create_capabilities_spec with a fully-capable client and
server and a nonempty connect-attrs blob. -/
theorem c8_create_capabilities_spec_witness :
    create_capabilities 0xffffffff false true true
      = spec_capabilities 0xffffffff false true true
    ∧ create_capabilities 0xffffffff false true true
        &&& 0xffffffff &&& GW_MYSQL_CAPABILITIES_CONNECT_ATTRS ≠ 0 := by
  have h := c8_create_capabilities_spec 0xffffffff 0xffffffff false true true false true
  exact ⟨h.1, h.2 (by decide)⟩

lemma recv_init_loop_done (queries : List String) (expected : Nat) :
    ∀ (reads : List InitRead) (r0 : Nat) (res : SMRes) (err : Option (ErrType × String)),
      res ≠ .DONE →
      (recv_init_loop queries expected r0 res err reads).res = .DONE →
      (recv_init_loop queries expected r0 res err reads).received = expected := by
  intro reads
  induction reads with
  | nil =>
    intro r0 res err hres h
    unfold recv_init_loop at h ⊢
    by_cases he : r0 = expected
    · simp [he]
    · rw [if_neg he] at h
      exact absurd h hres
  | cons r rest ih =>
    intro r0 res err hres h
    unfold recv_init_loop at h ⊢
    by_cases hlt : r0 < expected
    · rw [if_pos hlt] at h ⊢
      cases r with
      | sockErr => exact ih r0 res _ hres h
      | partialRead => exact ih r0 .IN_PROGRESS err (by intro hc; cases hc) h
      | packet buf =>
        cases hw : wrong_packet_type buf with
        | none =>
          simp only [hw] at h ⊢
          exact ih (r0 + 1) res err hres h
        | some w =>
          simp only [hw] at h ⊢
          exact absurd h hres
    · rw [if_neg hlt] at h ⊢
      by_cases he : r0 = expected
      · simp [he]
      · rw [if_neg he] at h
        exact absurd h hres

lemma recv_init_loop_all_ok (queries : List String) (expected : Nat) :
    ∀ (bufs : List (List Nat)) (r0 : Nat) (res : SMRes) (err : Option (ErrType × String)),
      (∀ b ∈ bufs, wrong_packet_type b = none) →
      r0 + bufs.length = expected →
      (recv_init_loop queries expected r0 res err (bufs.map .packet)).res = .DONE
      ∧ (recv_init_loop queries expected r0 res err (bufs.map .packet)).received = expected := by
  intro bufs
  induction bufs with
  | nil =>
    intro r0 res err hok hlen
    simp at hlen
    unfold recv_init_loop
    simp [hlen]
  | cons b bufs ih =>
    intro r0 res err hok hlen
    have hlt : r0 < expected := by
      simp at hlen
      omega
    have hb : wrong_packet_type b = none := hok b (List.mem_cons_self _ _)
    simp only [List.map_cons]
    unfold recv_init_loop
    rw [if_pos hlt]
    simp only [hb]
    refine ih (r0 + 1) res err (fun x hx => hok x (List.mem_cons_of_mem _ hx)) ?_
    simp at hlen ⊢
    omega

/-- C9: all configured init queries are sent concatenated in one write and
one OK packet is expected per query; a response packet that is not an OK
packet (an empty packet, an ERR packet, or a resultset packet) produces a
permanent error whose message names the offending query; the state machine
reports DONE only when exactly one OK packet per configured query has been
received, and does report DONE when they all arrive. -/
theorem c9_connection_init_queries (queries : List String) (bc : List Nat) (k : Nat)
    (buf : List Nat) (w : String) (rest : List InitRead) (reads : List InitRead)
    (bufs : List (List Nat)) (res0 : SMRes) (err0 : Option (ErrType × String)) :
    (queries ≠ [] →
      send_init_queries queries bc = (.IN_PROGRESS, [bc], queries.length))
    ∧ (queries = [] → send_init_queries queries bc = (.DONE, [], 0))
    ∧ (res0 ≠ .DONE →
        (recv_init_loop queries queries.length k res0 err0 reads).res = .DONE →
        (recv_init_loop queries queries.length k res0 err0 reads).received = queries.length)
    ∧ (k < queries.length → wrong_packet_type buf = some w →
        (recv_init_loop queries queries.length k res0 err0 (.packet buf :: rest))
          = ⟨k, res0, some (.PERMANENT, init_query_errmsg (queries.getD k "") w)⟩)
    ∧ ((∀ b ∈ bufs, wrong_packet_type b = none) → k + bufs.length = queries.length →
        (recv_init_loop queries queries.length k res0 err0 (bufs.map .packet)).res = .DONE) := by
  refine ⟨?_, ?_, recv_init_loop_done queries queries.length reads k res0 err0, ?_, ?_⟩
  · intro h
    unfold send_init_queries
    rw [if_neg (by simpa using h)]
  · intro h
    subst h
    rfl
  · intro hk hw
    unfold recv_init_loop
    rw [if_pos hk]
    simp only [hw]
  · intro hok hlen
    exact (recv_init_loop_all_ok queries queries.length bufs k res0 err0 hok hlen).1

/-- Witness for c9_connection_init_queries: two init queries, the second
response is an error packet. -/
theorem c9_connection_init_queries_witness :
    send_init_queries ["SET a=1", "SET b=2"] [1, 2, 3]
      = (.IN_PROGRESS, [[1, 2, 3]], 2)
    ∧ (recv_init_loop ["SET a=1", "SET b=2"] 2 1 .ERROR none
        [.packet [5, 0, 0, 1, 255, 6, 7], .sockErr])
      = ⟨1, .ERROR, some (.PERMANENT,
          "Connection initialization query 'SET b=2' returned an error packet.")⟩
    ∧ (recv_init_loop ["SET a=1", "SET b=2"] 2 0 .ERROR none
        [.packet [7, 0, 0, 1, 0, 0, 0], .packet [7, 0, 0, 2, 0, 0, 0]]).res = .DONE := by
  have h := c9_connection_init_queries ["SET a=1", "SET b=2"] [1, 2, 3] 1
    [5, 0, 0, 1, 255, 6, 7] "an error packet" [.sockErr] [] [] .ERROR none
  have h2 := c9_connection_init_queries ["SET a=1", "SET b=2"] [1, 2, 3] 0
    [] "" [] [] [[7, 0, 0, 1, 0, 0, 0], [7, 0, 0, 2, 0, 0, 0]] .ERROR none
  refine ⟨h.1 (by decide), ?_, ?_⟩
  · have := h.2.2.2.1 (by decide) (by decide)
    simpa using this
  · have := h2.2.2.2.2 (by intro b hb; fin_cases hb <;> decide) (by decide)
    simpa using this

/-- Witness for c6_prepare_response at the spec's example: stmt_id 17, one
column, one parameter, four further packets. -/
theorem c6_prepare_response_witness :
    (process_one_packet
      ⟨⟨.START, MXS_COM_STMT_PREPARE, 0, 0, 0, 0, 0, false, none, [], [], []⟩, 0, 0,
        false, false, false, false, false⟩
      [0, 17, 0, 0, 0, 1, 0, 1, 0, 0, 0, 0]
      ([0, 17, 0, 0, 0, 1, 0, 1, 0, 0, 0, 0] : List Nat).length).reply.generated_id = 17
    ∧ (process_list (process_one_packet
        ⟨⟨.START, MXS_COM_STMT_PREPARE, 0, 0, 0, 0, 0, false, none, [], [], []⟩, 0, 0,
          false, false, false, false, false⟩
        [0, 17, 0, 0, 0, 1, 0, 1, 0, 0, 0, 0]
        ([0, 17, 0, 0, 0, 1, 0, 1, 0, 0, 0, 0] : List Nat).length)
        [[1], [2], [3], [4]]).reply.state = .DONE := by
  have h := c6_prepare_response
    ⟨⟨.START, MXS_COM_STMT_PREPARE, 0, 0, 0, 0, 0, false, none, [], [], []⟩, 0, 0,
      false, false, false, false, false⟩
    17 0 0 0 1 0 1 0 [0, 0, 0] rfl rfl
  refine ⟨by simpa using h.1, ?_⟩
  have := h.2.2.2.2.1 [[1], [2], [3], [4]] (by decide)
  simpa using this

end MaxScaleSpec
